import Mathlib

/-!
Verification development for the automated social-media response pipeline
(Instagram DM / comment automation with a RAG chat backend).

The Python source is shallowly embedded: pure functions become Lean
functions, stateful code becomes explicit state passing, external I/O
(HTTP sends, LLM calls, clocks, hashes) becomes explicit parameters,
and fallible code returns `Option`/`Except`.  Character-level string
operations (`lower`, `upper`, `strip`, `split`, `\w`, `\s`) are embedded
on their ASCII fragment; the Python originals additionally handle
non-ASCII Unicode classes, which none of the verified properties exercise.
-/

namespace SpecVerify

/-! ### Python string primitives (ASCII fragment)

`isPySpace` models the ASCII part of Python's whitespace class (used by
`str.strip`, `str.split()` and the regex class `\s`): space, tab,
newline, carriage return, vertical tab, form feed. -/

def isPySpace (c : Char) : Bool :=
  c == ' ' || c == '\t' || c == '\n' || c == '\r' || c == '\x0b' || c == '\x0c'

/-- ASCII fragment of Python `str.lower`. -/
def asciiLower (c : Char) : Char :=
  if 'A' ≤ c && c ≤ 'Z' then Char.ofNat (c.toNat + 32) else c

/-- ASCII fragment of Python `str.upper`. -/
def asciiUpper (c : Char) : Char :=
  if 'a' ≤ c && c ≤ 'z' then Char.ofNat (c.toNat - 32) else c

/-- Python `str.strip()` on a character list. -/
def pyStripL (s : List Char) : List Char :=
  ((s.dropWhile isPySpace).reverse.dropWhile isPySpace).reverse

/-- Python `str.strip()`. -/
def pyStrip (s : String) : String :=
  ⟨pyStripL s.data⟩

/-- Python `str.lower()` (ASCII fragment). -/
def pyLower (s : String) : String :=
  ⟨s.data.map asciiLower⟩

/-- Python `str.upper()` (ASCII fragment). -/
def pyUpper (s : String) : String :=
  ⟨s.data.map asciiUpper⟩

/-- Lexicographic strict order on code points, as Python string `<`. -/
def lexLt : List Char → List Char → Bool
  | [], [] => false
  | [], _ :: _ => true
  | _ :: _, [] => false
  | a :: as, b :: bs => if a < b then true else if a == b then lexLt as bs else false

/-- Python string `<=` (lexicographic on code points). -/
def strLe (a b : String) : Bool :=
  lexLt a.data b.data || a.data == b.data

/-- Worker for `pyWords`: `cur` holds the reversed characters of the word
currently being scanned. -/
def pyWordsAux : List Char → List Char → List (List Char)
  | [], cur => if cur.isEmpty then [] else [cur.reverse]
  | c :: cs, cur =>
    if isPySpace c then
      if cur.isEmpty then pyWordsAux cs [] else cur.reverse :: pyWordsAux cs []
    else pyWordsAux cs (c :: cur)

/-- Python `str.split()` with no separator: split on whitespace runs,
dropping empty fields. -/
def pyWords (s : List Char) : List (List Char) :=
  pyWordsAux s []

/-- Boolean substring test on character lists, as Python `in` for strings. -/
def isSubListOf (pat s : List Char) : Bool :=
  decide (pat <:+: s)

namespace RagChat

/-! ### Gatekeeper filter (`app/ai/rag_chat.py`, class `GatekeeperFilter`)

Each regex of `GREETING_PATTERNS` is compiled to a decidable matcher on
the already-normalized (stripped, lowercased) character list.  Since each
pattern is anchored `^...$` and the input has no trailing newline after
stripping, `re.match` amounts to a full match. -/

/-- Matches `^stem c+$`: the fixed stem followed by one or more copies of `c`. -/
def stemPlus (stem : List Char) (c : Char) (s : List Char) : Bool :=
  decide (stem.length < s.length) && s.take stem.length == stem
    && (s.drop stem.length).all (· == c)

/-- ASCII fragment of the regex word class `\w`. -/
def isWordChar (c : Char) : Bool :=
  c.isAlphanum || c == '_'

/-- Matches `^\w*thanks?\w*$`: equivalently, every character is a word
character and `thank` occurs as a substring (the optional `s` and the
surrounding `\w*` absorb the rest). -/
def thanksPat (s : List Char) : Bool :=
  s.all isWordChar && isSubListOf "thank".data s

/-- Does `pat` occur in `s` starting exactly at index `i`? -/
def containsAt (s pat : List Char) (i : Nat) : Bool :=
  (s.drop i).take pat.length == pat

/-- Matches `^\w*thank\s*you\w*$` by brute-force choice of the two split
points (before `thank`, and the whitespace run before `you`). -/
def thankYouPat (s : List Char) : Bool :=
  (List.range (s.length + 1)).any fun i =>
    (s.take i).all isWordChar && containsAt s "thank".data i &&
      ((List.range ((s.drop (i + 5)).length + 1)).any fun j =>
        ((s.drop (i + 5)).take j).all isPySpace
          && containsAt (s.drop (i + 5)) "you".data j
          && ((s.drop (i + 5)).drop (j + 3)).all isWordChar)

/-- The `GREETING_PATTERNS` list, in source order.  The last three
patterns embed the literal (mojibake) characters present in the source
file; Unicode case folding of those non-ASCII characters under
`re.IGNORECASE` is not reproduced (the input is already lowercased and
the claims do not exercise it). -/
def matchesGreetingPattern (s : List Char) : Bool :=
  stemPlus ['h'] 'i' s ||                        -- ^hi+$
  stemPlus ['h', 'e', 'l', 'l'] 'o' s ||         -- ^hello+$
  stemPlus ['h', 'e'] 'y' s ||                   -- ^hey+$
  s == "hola".data ||                            -- ^hola$
  s == "namaste".data ||                         -- ^namaste$
  s == "good morning".data ||                    -- ^good morning$
  s == "good afternoon".data ||                  -- ^good afternoon$
  s == "good evening".data ||                    -- ^good evening$
  s == "good night".data ||                      -- ^good night$
  thanksPat s ||                                 -- ^\w*thanks?\w*$
  thankYouPat s ||                               -- ^\w*thank\s*you\w*$
  stemPlus ['o'] 'k' s ||                        -- ^ok+$
  stemPlus ['o', 'k', 'a'] 'y' s ||              -- ^okay+$
  stemPlus ['c', 'o', 'o'] 'l' s ||              -- ^cool+$
  stemPlus ['n', 'i', 'c'] 'e' s ||              -- ^nice+$
  stemPlus ['g', 'r', 'e', 'a'] 't' s ||         -- ^great+$
  stemPlus ['a', 'w', 'e', 's', 'o', 'm'] 'e' s ||  -- ^awesome+$
  stemPlus ['ð', 'Ÿ'] '‘' s ||    -- thumbs-up emoji pattern (as in source)
  stemPlus ['â', '¤', 'ï'] '¸' s ||  -- heart emoji pattern (as in source)
  stemPlus ['ð', 'Ÿ'] '™' s       -- folded-hands emoji pattern (as in source)

/-- The short-message greeting-word set used by the `<= 2` word heuristic. -/
def greetingWords : List (List Char) :=
  ["hi".data, "hey".data, "hello".data, "thanks".data, "thank".data,
   "ok".data, "okay".data, "cool".data, "nice".data]

/-- Normalization at the top of `is_generic_greeting`: `strip` then `lower`. -/
def normalizeMessage (m : String) : List Char :=
  (pyStripL m.data).map asciiLower

/-- GatekeeperFilter.is_generic_greeting. -/
def isGenericGreeting (message : String) : Bool :=
  let normalized := normalizeMessage message
  if matchesGreetingPattern normalized then true
  else
    let words := pyWords normalized
    if decide (words.length ≤ 2) && words.any (fun w => greetingWords.any (· == w)) then
      true
    else false

/-- STATIC_RESPONSES (the first entry ends with the literal mojibake
characters present in the source file). -/
def staticResponses : List String :=
  ["Hey! Thanks for reaching out! ðŸ˜Š",
   "Hello! How can I help you today?",
   "Hi there! What can I do for you?",
   "Hey! Feel free to ask me anything!",
   "Thanks for your message! What would you like to know?"]

/-- GatekeeperFilter.get_static_response: cycles through the pool by the
stored index; returns the reply and the incremented index. -/
def getStaticResponse (responseIndex : Nat) : String × Nat :=
  ((staticResponses.getD (responseIndex % staticResponses.length) ""), responseIndex + 1)

/-! ### Rate limiter (`app/ai/rag_chat.py`, class `RateLimiter`)

Real time is embedded by passing the two `time.time()` reads of
`wait_if_needed` as explicit rational-valued parameters; `sleepSemantics`
captures what `time.sleep` guarantees about the second read. -/

/-- RateLimiter state: configured delay, last-call time, call counter. -/
structure RateLimiter where
  delay : ℚ
  lastCallTime : ℚ
  callCount : ℕ
deriving DecidableEq

/-- State effect of RateLimiter.wait_if_needed, given the first time read
`tRead` and the time read `tAfter` taken after the (possible) sleep. -/
def RateLimiter.waitIfNeeded (st : RateLimiter) (_tRead tAfter : ℚ) : RateLimiter :=
  { st with lastCallTime := tAfter, callCount := st.callCount + 1 }

/-- Timing semantics of one wait_if_needed call: if the elapsed time since
the last call is below the delay, the call sleeps for the difference, so
the post-sleep read is at least `lastCallTime + delay`; otherwise time
only moves forward from the first read. -/
def sleepSemantics (st : RateLimiter) (tRead tAfter : ℚ) : Prop :=
  if tRead - st.lastCallTime < st.delay then st.lastCallTime + st.delay ≤ tAfter
  else tRead ≤ tAfter

/-- One observed throttle call: the two `time.time()` reads. -/
structure ThrottleCall where
  tRead : ℚ
  tAfter : ℚ
deriving DecidableEq

/-- Fold a sequence of throttle calls through the limiter state. -/
def runCalls (st : RateLimiter) : List ThrottleCall → RateLimiter
  | [] => st
  | c :: cs => runCalls (st.waitIfNeeded c.tRead c.tAfter) cs

/-- A trace of consecutive calls is valid when every call obeys the sleep
semantics from the state it observes, and each call starts no earlier
than the previous call finished. -/
def validTrace (st : RateLimiter) : List ThrottleCall → Prop
  | [] => True
  | c :: cs =>
    sleepSemantics st c.tRead c.tAfter ∧
      (match cs with
       | [] => True
       | c' :: _ => c.tAfter ≤ c'.tRead) ∧
      validTrace (st.waitIfNeeded c.tRead c.tAfter) cs

/-! ### Chat pipeline (`app/ai/rag_chat.py`, `RAGChatPipeline.generate_response`)

The LangChain `qa_chain.invoke` call (Pinecone retrieval + Groq
generation) is an external service; its outcome is passed in as an
`Except`, with `.error` modelling a raised exception.  The number of
chain invocations performed is reported in the outcome so that
"no retrieval/generation call is made" is an observable fact. -/

/-- The metadata `tokens_used` entry holds either the number `0` or the
string estimate, matching the heterogeneous Python value. -/
inductive TokensUsed where
  | count : ℕ → TokensUsed
  | estimate : String → TokensUsed
deriving DecidableEq

/-- Metadata of one retrieved source document (only the `post_id` field
is read by `generate_response`). -/
structure SourceDoc where
  postId : Option String
deriving DecidableEq

/-- Result of a successful `qa_chain.invoke`. -/
structure ChainResult where
  answer : String
  sourceDocuments : List SourceDoc
deriving DecidableEq

/-- The metadata dictionary built by `generate_response`. -/
structure ResponseMetadata where
  conversationId : Option String
  timestamp : String
  tokensUsed : TokensUsed
  source : String
  processingTimeMs : Option ℕ := none
  numSources : Option ℕ := none
  sourcePostId : Option String := none
  error : Option String := none
deriving DecidableEq

/-- Mutable pipeline state: the gatekeeper's response index and the rate
limiter. -/
structure PipelineState where
  responseIndex : ℕ
  rateLimiter : RateLimiter
deriving DecidableEq

/-- Per-call environment: the metadata timestamp, the two limiter time
reads, the measured elapsed milliseconds, and the chain outcome. -/
structure ChatEnv where
  timestamp : String
  tRead : ℚ
  tAfter : ℚ
  elapsedMs : ℕ
  chainResult : Except String ChainResult

/-- Everything `generate_response` produces: the reply, the metadata, the
updated pipeline state, and how many `qa_chain.invoke` calls ran. -/
structure ChatOutcome where
  response : String
  metadata : ResponseMetadata
  state : PipelineState
  chainCalls : ℕ

/-- The static fallback reply of the error branch. -/
def fallbackReply : String :=
  "I apologize, but I'm having trouble responding right now. Please try again later!"

/-- RAGChatPipeline.generate_response. -/
def generateResponse (st : PipelineState) (env : ChatEnv) (userMessage : String)
    (conversationId : Option String) : ChatOutcome :=
  let metadata0 : ResponseMetadata :=
    { conversationId := conversationId, timestamp := env.timestamp,
      tokensUsed := .count 0, source := "unknown" }
  if isGenericGreeting userMessage then
    let (response, idx) := getStaticResponse st.responseIndex
    let md := { metadata0 with
      source := "gatekeeper"
      tokensUsed := .count 0
      processingTimeMs := some env.elapsedMs }
    { response := response,
      metadata := md,
      state := { st with responseIndex := idx },
      chainCalls := 0 }
  else
    let rl := st.rateLimiter.waitIfNeeded env.tRead env.tAfter
    match env.chainResult with
    | .ok result =>
      let docs := result.sourceDocuments
      let md := { metadata0 with
        source := "rag_llm"
        tokensUsed := .estimate "estimated_50-200"
        numSources := some docs.length
        sourcePostId := match docs with
          | [] => none
          | d :: _ => some (d.postId.getD "unknown")
        processingTimeMs := some env.elapsedMs }
      { response := result.answer,
        metadata := md,
        state := { st with rateLimiter := rl },
        chainCalls := 1 }
    | .error e =>
      let md := { metadata0 with source := "error_fallback", error := some e }
      { response := fallbackReply,
        metadata := md,
        state := { st with rateLimiter := rl },
        chainCalls := 1 }

end RagChat

namespace GeminiService

/-! ### Auto-reply policy (`app/ai/gemini_service.py`, `should_auto_reply`)

Database rows become records, `datetime.utcnow()` reads become explicit
integer timestamps (seconds), and the wall-clock local time used by the
business-hours check is an explicit `"HH:MM"` string.  The blacklist
column stores JSON text; `blacklistKeywords = some l` models a
successfully parsed list of strings and `none` models a null column or a
parse failure (both make the gate a no-op, as the bare `except: pass`
does). -/

/-- The ChatSettings row (fields consulted by `should_auto_reply`). -/
structure ChatSettings where
  autoReplyEnabled : Bool
  replyRateLimit : ℕ
  blacklistKeywords : Option (List String)
  businessHoursOnly : Bool
  businessHoursStart : String
  businessHoursEnd : String
deriving DecidableEq

/-- A DMConversation row (fields consulted by the embedded paths). -/
structure DMConversation where
  id : ℕ
  instagramUserId : String
  instagramUsername : Option String
  messageCount : ℕ
  autoReplyCount : ℕ
  lastMessageAt : Option ℤ
deriving DecidableEq

/-- A DMMessage row. -/
structure DMMessage where
  conversationId : ℕ
  instagramMessageId : Option String
  senderType : String
  messageText : String
  isAutoReply : Bool
  sentSuccessfully : Bool
  errorMessage : Option String
  createdAt : ℤ
deriving DecidableEq

/-- is_within_business_hours: `True` when no settings row exists or the
flag is off, otherwise the string comparison
`business_hours_start <= current_time <= business_hours_end`. -/
def isWithinBusinessHours (settings : Option ChatSettings) (currentHHMM : String) : Bool :=
  match settings with
  | none => true
  | some s =>
    if !s.businessHoursOnly then true
    else strLe s.businessHoursStart currentHHMM && strLe currentHHMM s.businessHoursEnd

/-- should_auto_reply.  `now` is the `datetime.utcnow()` read (seconds),
`currentHHMM` the local wall-clock time used by the business-hours gate,
`messages` the DMMessage table. -/
def shouldAutoReply (settings : Option ChatSettings) (now : ℤ) (currentHHMM : String)
    (messageText : String) (conversation : DMConversation) (messages : List DMMessage) :
    Bool × String :=
  match settings with
  | none => (false, "Auto-reply is disabled")
  | some s =>
    if !s.autoReplyEnabled then (false, "Auto-reply is disabled")
    else if (match conversation.lastMessageAt with
             | some t => decide (t < now - 300)
             | none => false) then
      (false, "Message too old (> 5 minutes)")
    else if !isWithinBusinessHours (some s) currentHHMM then
      (false, "Outside business hours")
    else
      let recentAutoReplies :=
        (messages.filter fun m =>
          m.conversationId == conversation.id && m.isAutoReply
            && decide (now - 3600 ≤ m.createdAt)).length
      if s.replyRateLimit ≤ recentAutoReplies then
        (false, "Rate limit reached (" ++ toString s.replyRateLimit ++ "/hour)")
      else
        match s.blacklistKeywords with
        | some blacklist =>
          match blacklist.find? (fun kw =>
              isSubListOf (pyLower kw).data (pyLower messageText).data) with
          | some kw => (false, "Blacklisted keyword: " ++ kw)
          | none => (true, "OK")
        | none => (true, "OK")

/-- Evaluate an ordered gate list, returning the reason of the first
failing gate, or `(true, "OK")` when every gate passes. -/
def firstFailingGate : List (Bool × String) → Bool × String
  | [] => (true, "OK")
  | (pass, reason) :: rest =>
    if pass then firstFailingGate rest else (false, reason)

/-- Modelled from the spec's §4.6 wording: the five gates in the stated
order — (1) global enabled flag, (2) message staleness, (3) business
hours, (4) per-conversation hourly cap, (5) blacklist keywords — with the
first failing gate's reason returned.  Used as the specification side of
claim C6. -/
def shouldAutoReplyGates (settings : Option ChatSettings) (now : ℤ) (currentHHMM : String)
    (messageText : String) (conversation : DMConversation) (messages : List DMMessage) :
    Bool × String :=
  match settings with
  | none => (false, "Auto-reply is disabled")
  | some s =>
    let fresh : Bool :=
      match conversation.lastMessageAt with
      | some t => decide (now - 300 ≤ t)
      | none => true
    let recent :=
      (messages.filter fun m =>
        m.conversationId == conversation.id && m.isAutoReply
          && decide (now - 3600 ≤ m.createdAt)).length
    let blacklistHit : Option String :=
      match s.blacklistKeywords with
      | some blacklist =>
        blacklist.find? fun kw => isSubListOf (pyLower kw).data (pyLower messageText).data
      | none => none
    firstFailingGate
      [(s.autoReplyEnabled, "Auto-reply is disabled"),
       (fresh, "Message too old (> 5 minutes)"),
       (isWithinBusinessHours (some s) currentHHMM, "Outside business hours"),
       (decide (recent < s.replyRateLimit),
         "Rate limit reached (" ++ toString s.replyRateLimit ++ "/hour)"),
       (blacklistHit.isNone, "Blacklisted keyword: " ++ blacklistHit.getD "")]

end GeminiService

namespace InstagramWebhooks

open GeminiService

/-! ### Webhook DM processing (`app/social/instagram_webhooks.py`,
`process_instagram_message`)

The database session is a `MessagingState`; external effects are passed
in through `ProcessEnv` (the MD5 hex digest function used by
`_normalize_message_id`, the `time.time()` fallback, the username lookup,
the two `utcnow()` reads and the settings row read by
`should_auto_reply`).  The asynchronous reply thread started on the
should-reply path runs outside this function; its dispatch is modelled by
the `replied` flag of the result. -/

/-- _normalize_message_id.  `hashHex` stands for
`hashlib.md5(·).hexdigest()`; `fallbackTime` is the `int(time.time())`
read used when no message id and no timestamp are available.  Python
truthiness is modelled exactly: an empty or missing id falls back, a
missing or zero timestamp falls back, an empty sender becomes
`"unknown"`. -/
def normalizeMessageId (hashHex : String → String) (messageId : Option String)
    (senderId : String) (timestamp : Option ℤ) (fallbackTime : ℤ) : String :=
  let maxLength : ℕ := 100
  let mid := pyStrip (messageId.getD "")
  let mid :=
    if mid = "" then
      let sender := if senderId = "" then "unknown" else senderId
      let ts := match timestamp with
        | some t => if t = 0 then fallbackTime else t
        | none => fallbackTime
      "mid-" ++ sender ++ "-" ++ toString ts
    else mid
  if maxLength < mid.data.length then
    let hashSuffix : List Char := (hashHex mid).data.take 16
    let prefixLen := maxLength - 17
    ⟨mid.data.take prefixLen ++ "-".data ++ hashSuffix⟩
  else mid

/-- Result dictionary of `process_instagram_message` (success paths; the
embedding is total, so the broad `except` branch is unreachable). -/
structure ProcessResult where
  success : Bool
  replied : Bool
  reason : String
deriving DecidableEq

/-- The conversation/message tables and the id sequence. -/
structure MessagingState where
  conversations : List DMConversation
  messages : List DMMessage
  nextConversationId : ℕ
deriving DecidableEq

/-- External inputs of one `process_instagram_message` call. -/
structure ProcessEnv where
  hashHex : String → String
  fallbackTime : ℤ
  usernameLookup : Option String
  nowUpdate : ℤ
  nowCheck : ℤ
  currentHHMM : String
  settings : Option ChatSettings

/-- process_instagram_message (synchronous part).  On the duplicate path
the freshly flushed conversation (if one was created) is retained in the
state, as the function itself performs no rollback before returning. -/
def processInstagramMessage (env : ProcessEnv) (st : MessagingState) (senderId : String)
    (messageId : Option String) (messageText : String) (timestamp : Option ℤ) :
    MessagingState × ProcessResult :=
  let found := st.conversations.find? fun c => c.instagramUserId == senderId
  let conv : DMConversation :=
    match found with
    | some c => c
    | none =>
      { id := st.nextConversationId, instagramUserId := senderId,
        instagramUsername := env.usernameLookup, messageCount := 0,
        autoReplyCount := 0, lastMessageAt := some env.nowUpdate }
  let st1 : MessagingState :=
    match found with
    | some _ => st
    | none =>
      { st with conversations := st.conversations ++ [conv],
                nextConversationId := st.nextConversationId + 1 }
  let mid := normalizeMessageId env.hashHex messageId senderId timestamp env.fallbackTime
  if st1.messages.any (fun m => m.instagramMessageId == some mid) then
    (st1, { success := true, replied := false, reason := "duplicate_message" })
  else
    let incoming : DMMessage :=
      { conversationId := conv.id, instagramMessageId := some mid,
        senderType := "user", messageText := messageText, isAutoReply := false,
        sentSuccessfully := true, errorMessage := none, createdAt := env.nowUpdate }
    let conv' := { conv with lastMessageAt := some env.nowUpdate,
                             messageCount := conv.messageCount + 1 }
    let st2 : MessagingState :=
      { st1 with
        messages := st1.messages ++ [incoming],
        conversations := st1.conversations.map fun c =>
          if c.id == conv.id then conv' else c }
    let decision := shouldAutoReply env.settings env.nowCheck env.currentHHMM
      messageText conv' st2.messages
    (st2,
      if decision.1 then
        { success := true, replied := true, reason := "Queued auto-reply" }
      else
        { success := true, replied := false, reason := decision.2 })

/-- Number of stored messages carrying the given remote message id. -/
def countByMid (messages : List DMMessage) (mid : String) : ℕ :=
  (messages.filter fun m => m.instagramMessageId == some mid).length

end InstagramWebhooks

namespace AutomationHandlers

/-! ### Comment-to-DM trigger (`app/automation_handlers.py`,
`_process_comment_to_dm`)

The CommentTrigger / CommentDMTracker / AutomationLog row shapes are
taken from their uses in `automation_handlers.py` and
`automation_routes.py` together with the spec's data model (their model
module is not part of the source tree).  The external `query_rag_system`
and `send_instagram_message` calls are passed in through `CommentDmEnv`.
Exceptions raised by `_log_automation` are swallowed by the source;
logging is embedded as an unconditional append. -/

/-- A CommentTrigger row. -/
structure CommentTrigger where
  keyword : String
  dmResponse : String
  useRag : Bool
  isActive : Bool
  timesTriggered : ℕ
deriving DecidableEq

/-- A CommentDMTracker (duplicate-send guard) row. -/
structure CommentDMTracker where
  postId : String
  userId : String
  triggerKeyword : String
deriving DecidableEq

/-- An AutomationLog row (fields written by `_log_automation`). -/
structure AutomationLogEntry where
  automationType : String
  actionTaken : String
  success : Bool
  errorMessage : Option String
  responseText : Option String
  userId : String
  postId : String
  commentId : String
deriving DecidableEq

/-- The automation tables. -/
structure AutomationState where
  triggers : List CommentTrigger
  trackers : List CommentDMTracker
  logs : List AutomationLogEntry
deriving DecidableEq

/-- Outcome of the external `query_rag_system` call: a raised exception,
a falsy result, or a `{success, response}` pair. -/
inductive RagOutcome where
  | raised : String → RagOutcome
  | falsy : RagOutcome
  | result : Bool → String → RagOutcome

/-- External inputs of one `_process_comment_to_dm` invocation. -/
structure CommentDmEnv where
  rag : RagOutcome
  sendOk : Bool
  sendError : Option String

/-- Does this active trigger's (uppercased) keyword occur in the
uppercased comment text? -/
def triggerMatches (commentText : String) (t : CommentTrigger) : Bool :=
  t.isActive && isSubListOf (pyUpper t.keyword).data (pyUpper commentText).data

/-- Increment `times_triggered` of the first trigger satisfying `p`
(the ORM object mutated in the source). -/
def bumpFirstTrigger (p : CommentTrigger → Bool) : List CommentTrigger → List CommentTrigger
  | [] => []
  | t :: ts =>
    if p t then { t with timesTriggered := t.timesTriggered + 1 } :: ts
    else t :: bumpFirstTrigger p ts

/-- The default DM text used when no message could be produced
(the literal from the source). -/
def defaultDmThanks : String := "Thanks for your comment! 🙏"

/-- The DM text computed for a matched trigger: RAG-backed when
`use_rag`, else the stored response; empty/missing text falls back to the
default, matching Python truthiness. -/
def composeDmMessage (trigger : CommentTrigger) (rag : RagOutcome) : String :=
  let m0 : Option String :=
    if trigger.useRag then
      match rag with
      | .raised _ => some trigger.dmResponse
      | .falsy => none
      | .result ok resp => if ok then some (pyStrip resp) else none
    else some trigger.dmResponse
  match m0 with
  | none => defaultDmThanks
  | some m => if m = "" then defaultDmThanks else m

/-- Result of one `_process_comment_to_dm` invocation: the new state,
whether `send_instagram_message` was attempted, and whether it reported
success. -/
structure CommentDmResult where
  state : AutomationState
  sendAttempted : Bool
  sendSucceeded : Bool

/-- _process_comment_to_dm. -/
def processCommentToDm (st : AutomationState) (env : CommentDmEnv) (commentText userId
    _username postId _postCaption commentId : String) : CommentDmResult :=
  match st.triggers.find? (triggerMatches commentText) with
  | none => { state := st, sendAttempted := false, sendSucceeded := false }
  | some trigger =>
    if st.trackers.any (fun tr => tr.postId == postId && tr.userId == userId) then
      let dupLog : AutomationLogEntry :=
        { automationType := "comment_to_dm", actionTaken := "duplicate_prevented",
          success := true,
          errorMessage := some "DM already sent to this user for this post",
          responseText := none, userId := userId, postId := postId,
          commentId := commentId }
      { state := { st with logs := st.logs ++ [dupLog] },
        sendAttempted := false, sendSucceeded := false }
    else
      let dmMessage := composeDmMessage trigger env.rag
      if env.sendOk then
        let tracker : CommentDMTracker :=
          { postId := postId, userId := userId, triggerKeyword := trigger.keyword }
        let sentLog : AutomationLogEntry :=
          { automationType := "comment_to_dm", actionTaken := "sent_dm",
            success := true, errorMessage := none,
            responseText := some dmMessage, userId := userId, postId := postId,
            commentId := commentId }
        { state := { st with
            triggers := bumpFirstTrigger (triggerMatches commentText) st.triggers,
            trackers := st.trackers ++ [tracker],
            logs := st.logs ++ [sentLog] },
          sendAttempted := true, sendSucceeded := true }
      else
        let failLog : AutomationLogEntry :=
          { automationType := "comment_to_dm", actionTaken := "failed_to_send",
            success := false, errorMessage := env.sendError,
            responseText := some dmMessage, userId := userId, postId := postId,
            commentId := commentId }
        { state := { st with logs := st.logs ++ [failLog] },
          sendAttempted := true, sendSucceeded := false }

/-- Number of guard rows stored for a (post, user) pair. -/
def countTrackers (st : AutomationState) (postId userId : String) : ℕ :=
  (st.trackers.filter fun tr => tr.postId == postId && tr.userId == userId).length

end AutomationHandlers

namespace RagIngest

/-! ### Ingestion pipeline (`app/ai/rag_ingest.py`)

`json.loads` is embedded by a JSON parser over character lists (values,
strings with escapes, numbers per the JSON grammar plus the
`NaN`/`Infinity` constants CPython accepts, arrays, objects; the four
JSON whitespace characters).  Parsed values keep number lexemes
uninterpreted — no verified property depends on numeric value — and
Python's `str()` of a parsed value is reproduced exactly for scalars and
structurally for containers. -/

/-- A parsed JSON value. -/
inductive JValue where
  | jnull : JValue
  | jbool : Bool → JValue
  | jnum : String → JValue
  | jstr : String → JValue
  | jarr : List JValue → JValue
  | jobj : List (String × JValue) → JValue

/-- The four whitespace characters `json.loads` skips. -/
def jsonWs (c : Char) : Bool :=
  c == ' ' || c == '\t' || c == '\n' || c == '\r'

/-- Skip JSON whitespace. -/
def skipJsonWs (s : List Char) : List Char :=
  s.dropWhile jsonWs

/-- Hexadecimal digit test. -/
def isHexDigitChar (c : Char) : Bool :=
  c.isDigit || ('a' ≤ c && c ≤ 'f') || ('A' ≤ c && c ≤ 'F')

/-- Value of a hexadecimal digit. -/
def hexDigitVal (c : Char) : ℕ :=
  if c.isDigit then c.toNat - '0'.toNat
  else if 'a' ≤ c && c ≤ 'f' then c.toNat - 'a'.toNat + 10
  else c.toNat - 'A'.toNat + 10

/-- Parse the body of a JSON string (the opening quote already consumed),
returning the decoded characters and the remaining input.  Unescaped
control characters are rejected, as by `json.loads`.  A lone `\uXXXX`
escape decodes to the code point when it is a valid `Char` (surrogate
pairing is not reproduced; no verified property exercises it). -/
def parseJString : List Char → Option (List Char × List Char)
  | [] => none
  | c :: rest =>
    if c == '"' then some ([], rest)
    else if c == '\\' then
      match rest with
      | [] => none
      | e :: rest2 =>
        if e == '"' || e == '\\' || e == '/' then
          (parseJString rest2).map fun p => (e :: p.1, p.2)
        else if e == 'b' then (parseJString rest2).map fun p => ('\x08' :: p.1, p.2)
        else if e == 'f' then (parseJString rest2).map fun p => ('\x0c' :: p.1, p.2)
        else if e == 'n' then (parseJString rest2).map fun p => ('\n' :: p.1, p.2)
        else if e == 'r' then (parseJString rest2).map fun p => ('\r' :: p.1, p.2)
        else if e == 't' then (parseJString rest2).map fun p => ('\t' :: p.1, p.2)
        else if e == 'u' then
          match rest2 with
          | h1 :: h2 :: h3 :: h4 :: rest3 =>
            if isHexDigitChar h1 && isHexDigitChar h2 && isHexDigitChar h3
                && isHexDigitChar h4 then
              let n := ((hexDigitVal h1 * 16 + hexDigitVal h2) * 16 + hexDigitVal h3) * 16
                + hexDigitVal h4
              (parseJString rest3).map fun p => (Char.ofNat n :: p.1, p.2)
            else none
          | _ => none
        else none
    else if c.toNat < 32 then none
    else (parseJString rest).map fun p => (c :: p.1, p.2)

/-- Parse a JSON number per the grammar
`-? (0 | [1-9][0-9]*) (. [0-9]+)? ([eE][+-]?[0-9]+)?`, returning its
lexeme and the rest of the input. -/
def parseJNumber (s : List Char) : Option (List Char × List Char) :=
  let (neg, s1) : List Char × List Char :=
    match s with
    | '-' :: r => (['-'], r)
    | _ => ([], s)
  let intPart : Option (List Char × List Char) :=
    match s1 with
    | '0' :: r => some (['0'], r)
    | d :: r =>
      if '1' ≤ d && d ≤ '9' then
        some (d :: r.takeWhile Char.isDigit, r.dropWhile Char.isDigit)
      else none
    | [] => none
  match intPart with
  | none => none
  | some (ip, s2) =>
    let (fracPart, s3) : List Char × List Char :=
      match s2 with
      | '.' :: r =>
        if (r.takeWhile Char.isDigit).isEmpty then ([], s2)
        else ('.' :: r.takeWhile Char.isDigit, r.dropWhile Char.isDigit)
      | _ => ([], s2)
    if fracPart.isEmpty && (match s2 with | '.' :: _ => true | _ => false) then none
    else
      match s3 with
      | e :: r =>
        if e == 'e' || e == 'E' then
          let (sign, r2) : List Char × List Char :=
            match r with
            | '+' :: rr => (['+'], rr)
            | '-' :: rr => (['-'], rr)
            | _ => ([], r)
          let ds := r2.takeWhile Char.isDigit
          if ds.isEmpty then none
          else some (neg ++ ip ++ fracPart ++ e :: sign ++ ds, r2.dropWhile Char.isDigit)
        else some (neg ++ ip ++ fracPart, s3)
      | [] => some (neg ++ ip ++ fracPart, s3)

mutual

/-- Parse one JSON value, fuel-bounded. -/
def parseJValue : ℕ → List Char → Option (JValue × List Char)
  | 0, _ => none
  | fuel + 1, s =>
    match skipJsonWs s with
    | 'n' :: 'u' :: 'l' :: 'l' :: rest => some (.jnull, rest)
    | 't' :: 'r' :: 'u' :: 'e' :: rest => some (.jbool true, rest)
    | 'f' :: 'a' :: 'l' :: 's' :: 'e' :: rest => some (.jbool false, rest)
    | 'N' :: 'a' :: 'N' :: rest => some (.jnum "NaN", rest)
    | 'I' :: 'n' :: 'f' :: 'i' :: 'n' :: 'i' :: 't' :: 'y' :: rest =>
      some (.jnum "Infinity", rest)
    | '-' :: 'I' :: 'n' :: 'f' :: 'i' :: 'n' :: 'i' :: 't' :: 'y' :: rest =>
      some (.jnum "-Infinity", rest)
    | '"' :: rest => (parseJString rest).map fun p => (.jstr ⟨p.1⟩, p.2)
    | '\x7b' :: rest => parseJObjectBody fuel rest
    | '[' :: rest => parseJArrayBody fuel rest
    | s' => (parseJNumber s').map fun p => (.jnum ⟨p.1⟩, p.2)

/-- Parse an array body (after `[`). -/
def parseJArrayBody : ℕ → List Char → Option (JValue × List Char)
  | 0, _ => none
  | fuel + 1, s =>
    match skipJsonWs s with
    | ']' :: rest => some (.jarr [], rest)
    | s' =>
      match parseJValue fuel s' with
      | none => none
      | some (v, rest) => parseJArrayTail fuel [v] rest

/-- Parse the rest of an array after at least one item; `acc` holds the
items seen so far in reverse. -/
def parseJArrayTail : ℕ → List JValue → List Char → Option (JValue × List Char)
  | 0, _, _ => none
  | fuel + 1, acc, s =>
    match skipJsonWs s with
    | ']' :: rest => some (.jarr acc.reverse, rest)
    | ',' :: rest =>
      match parseJValue fuel rest with
      | none => none
      | some (v, rest2) => parseJArrayTail fuel (v :: acc) rest2
    | _ => none

/-- Parse one `"key": value` member. -/
def parseJMember : ℕ → List Char → Option ((String × JValue) × List Char)
  | 0, _ => none
  | fuel + 1, s =>
    match skipJsonWs s with
    | '"' :: rest =>
      match parseJString rest with
      | none => none
      | some (key, rest2) =>
        match skipJsonWs rest2 with
        | ':' :: rest3 =>
          match parseJValue fuel rest3 with
          | none => none
          | some (v, rest4) => some ((⟨key⟩, v), rest4)
        | _ => none
    | _ => none

/-- Parse an object body (after the opening brace). -/
def parseJObjectBody : ℕ → List Char → Option (JValue × List Char)
  | 0, _ => none
  | fuel + 1, s =>
    match skipJsonWs s with
    | '\x7d' :: rest => some (.jobj [], rest)
    | s' =>
      match parseJMember fuel s' with
      | none => none
      | some (kv, rest) => parseJObjectTail fuel [kv] rest

/-- Parse the rest of an object after at least one member; `acc` holds
the members seen so far in reverse. -/
def parseJObjectTail : ℕ → List (String × JValue) → List Char → Option (JValue × List Char)
  | 0, _, _ => none
  | fuel + 1, acc, s =>
    match skipJsonWs s with
    | '\x7d' :: rest => some (.jobj acc.reverse, rest)
    | ',' :: rest =>
      match parseJMember fuel rest with
      | none => none
      | some (kv, rest2) => parseJObjectTail fuel (kv :: acc) rest2
    | _ => none

end

/-- json.loads: parse one value and require only whitespace to follow.
The fuel `2 * length + 4` dominates the recursion depth, which consumes
at least one input character every two steps. -/
def loads (s : String) : Option JValue :=
  match parseJValue (2 * s.data.length + 4) s.data with
  | some (v, rest) => if (skipJsonWs rest).isEmpty then some v else none
  | none => none

mutual

/-- Python `repr()` of a parsed JSON value (string escaping inside
`repr` and float normalization of number lexemes are not reproduced; no
verified property exercises them). -/
def pyRepr : JValue → String
  | .jnull => "None"
  | .jbool true => "True"
  | .jbool false => "False"
  | .jnum lx => lx
  | .jstr s => "'" ++ s ++ "'"
  | .jarr items => "[" ++ String.intercalate ", " (pyReprList items) ++ "]"
  | .jobj members => "\x7b" ++ String.intercalate ", " (pyReprMembers members) ++ "\x7d"

/-- `repr` of each array item. -/
def pyReprList : List JValue → List String
  | [] => []
  | v :: vs => pyRepr v :: pyReprList vs

/-- `repr` of each object member. -/
def pyReprMembers : List (String × JValue) → List String
  | [] => []
  | (k, v) :: ms => ("'" ++ k ++ "': " ++ pyRepr v) :: pyReprMembers ms

end

/-- Python `str()` of a parsed JSON value (as interpolated into the
document f-string). -/
def pyStr : JValue → String
  | .jstr s => s
  | v => pyRepr v

/-- Python `key in facts`: key membership for dicts, element equality
for lists, substring test for strings; `none` models the `TypeError`
raised for the remaining types. -/
def pyInValue (key : String) : JValue → Option Bool
  | .jobj members => some (members.any fun p => p.1 == key)
  | .jarr items =>
    some (items.any fun it =>
      match it with
      | .jstr s => s == key
      | _ => false)
  | .jstr s => some (isSubListOf key.data s.data)
  | _ => none

/-- Sequential `all(key in facts for key in keys)`, propagating the
first `TypeError` as `none`. -/
def pyAllKeysIn (keys : List String) (v : JValue) : Option Bool :=
  match keys with
  | [] => some true
  | k :: ks =>
    match pyInValue k v with
    | none => none
    | some false => some false
    | some true => pyAllKeysIn ks v

/-- Python `facts[k]`: dict indexing with last-wins duplicate keys;
`none` models the `KeyError`/`TypeError` raised otherwise. -/
def jLookup (v : JValue) (k : String) : Option JValue :=
  match v with
  | .jobj members => (members.reverse.find? fun p => p.1 == k).map (·.2)
  | _ => none

/-- The default fact JSON returned by `_fallback_caption_extraction`
when no JSON object can be recovered from the model output. -/
def defaultFactsJson : String :=
  "\x7b\"date\":\"Unknown\",\"venue\":\"Unknown\",\"topic\":\"General post\"\x7d"

/-- The brace-delimited span recovered from the model output:
`response_text[response_text.index('\x7b') : response_text.rindex('\x7d') + 1]`
(Python slice clamping included: when the last closing brace precedes the
first opening brace the span is empty). -/
def jsonSpan (cs : List Char) : String :=
  let start := cs.findIdx (· == '\x7b')
  let stop := cs.length - 1 - cs.reverse.findIdx (· == '\x7d')
  ⟨(cs.drop start).take (stop + 1 - start)⟩

/-- RAGIngestionPipeline._fallback_caption_extraction.  `modelResult` is
the outcome of `vision_model.invoke(prompt)` (`.error` models a raised
exception, which the broad `except` maps to the default JSON). -/
def fallbackCaptionExtraction (modelResult : Except String String) : String :=
  match modelResult with
  | .error _ => defaultFactsJson
  | .ok response =>
    let responseText := pyStrip response
    let cs := responseText.data
    if cs.contains '\x7b' && cs.contains '\x7d' then
      match loads (jsonSpan cs) with
      | some _ => jsonSpan cs
      | none => defaultFactsJson
    else defaultFactsJson

/-- RAGIngestionPipeline.extract_key_facts_with_vision (the unused
base64 image encoding is omitted; the source's generation call is the
fallback caption extraction).  Returns `none` when the required-keys
validation raises or fails. -/
def extractKeyFacts (modelResult : Except String String) : Option JValue :=
  let responseText := fallbackCaptionExtraction modelResult
  match loads responseText with
  | none => none
  | some facts =>
    match pyAllKeysIn ["date", "venue", "topic"] facts with
    | some true => some facts
    | _ => none

/-- Metadata stored with an ingested document. -/
structure IngestMetadata where
  postId : String
  platform : String
  date : JValue
  venue : JValue
  topic : JValue
  ingestedAt : String
  scheduledTime : Option String

/-- The vector store: documents keyed by post id. -/
abbrev KnowledgeStore : Type := List (String × String × IngestMetadata)

/-- Pinecone `add_texts` with explicit ids: last-write-wins upsert. -/
def upsertDoc (store : KnowledgeStore) (id text : String) (meta : IngestMetadata) :
    KnowledgeStore :=
  let old : List (String × String × IngestMetadata) := store
  if old.any (·.1 == id) then
    old.map fun e => if e.1 == id then (id, text, meta) else e
  else old ++ [(id, text, meta)]

/-- RAGIngestionPipeline.ingest_post.  `imageDownload` is the outcome of
`download_image_to_ram` (with Python truthiness: empty bytes are falsy),
`modelResult` the generation call's outcome and `ingestedAt` the
`utcnow().isoformat()` read. -/
def ingestPost (store : KnowledgeStore) (postId _imageUrl caption platform : String)
    (scheduledTime : Option String) (imageDownload : Option (List ℕ))
    (modelResult : Except String String) (ingestedAt : String) : Bool × KnowledgeStore :=
  match imageDownload with
  | none => (false, store)
  | some bytes =>
    if bytes.isEmpty then (false, store)
    else
      match extractKeyFacts modelResult with
      | none => (false, store)
      | some facts =>
        match jLookup facts "date", jLookup facts "venue", jLookup facts "topic" with
        | some d, some v, some t =>
          let documentText :=
            "Date: " ++ pyStr d ++ "\nVenue: " ++ pyStr v ++ "\nTopic: " ++ pyStr t
              ++ "\nCaption: " ++ ⟨caption.data.take 200⟩
          let meta : IngestMetadata :=
            { postId := postId, platform := platform, date := d, venue := v,
              topic := t, ingestedAt := ingestedAt, scheduledTime := scheduledTime }
          (true, upsertDoc store postId documentText meta)
        | _, _, _ => (false, store)

/-- Number of stored documents for a post id. -/
def countDocs (store : KnowledgeStore) (id : String) : ℕ :=
  (store.filter (·.1 == id)).length

end RagIngest

/-! ## Theorems -/

open RagChat GeminiService InstagramWebhooks AutomationHandlers RagIngest

/-- One throttle call always finishes no earlier than its first time
read. -/
theorem sleepSemantics_tRead_le (st : RateLimiter) (t1 t2 : ℚ)
    (h : sleepSemantics st t1 t2) : t1 ≤ t2 := by
  unfold sleepSemantics at h
  split at h <;> linarith

/-- One throttle call always finishes at least `delay` after the
previous recorded call time. -/
theorem sleepSemantics_advance (st : RateLimiter) (t1 t2 : ℚ)
    (h : sleepSemantics st t1 t2) : st.lastCallTime + st.delay ≤ t2 := by
  unfold sleepSemantics at h
  split at h
  · exact h
  · next hc => push_neg at hc; linarith

/-- `runCalls` preserves the configured delay. -/
theorem runCalls_delay (cs : List ThrottleCall) : ∀ st : RateLimiter,
    (runCalls st cs).delay = st.delay := by
  induction cs with
  | nil => intro st; rfl
  | cons c cs ih => intro st; simpa [runCalls, RateLimiter.waitIfNeeded] using ih _

/-- `runCalls` increments the call counter once per call. -/
theorem runCalls_callCount (cs : List ThrottleCall) : ∀ st : RateLimiter,
    (runCalls st cs).callCount = st.callCount + cs.length := by
  induction cs with
  | nil => intro st; simp [runCalls]
  | cons c cs ih =>
    intro st
    simp only [runCalls, List.length_cons]
    rw [ih]
    simp [RateLimiter.waitIfNeeded]
    omega

/-- After a nonempty trace, the recorded last-call time is the final
call's post-sleep time read. -/
theorem runCalls_lastCallTime (cs : List ThrottleCall) : ∀ st : RateLimiter,
    ∀ h : cs ≠ [], (runCalls st cs).lastCallTime = (cs.getLast h).tAfter := by
  induction cs with
  | nil => intro _ h; exact absurd rfl h
  | cons c cs ih =>
    intro st h
    cases cs with
    | nil => simp [runCalls, RateLimiter.waitIfNeeded]
    | cons c' cs' =>
      rw [List.getLast_cons (by simp)]
      exact ih _ (by simp)

/-- Chaining lemma: across a valid nonempty trace, the final recorded
time advances from the initial one by at least `delay` per call. -/
theorem validTrace_advance (cs : List ThrottleCall) : ∀ st : RateLimiter,
    validTrace st cs → cs ≠ [] →
    st.lastCallTime + (cs.length : ℚ) * st.delay ≤ (runCalls st cs).lastCallTime := by
  induction cs with
  | nil => intro _ _ h; exact absurd rfl h
  | cons c cs ih =>
    intro st hv _
    obtain ⟨hsleep, _, htail⟩ := hv
    have h1 : st.lastCallTime + st.delay ≤ c.tAfter :=
      sleepSemantics_advance st c.tRead c.tAfter hsleep
    cases cs with
    | nil =>
      simp only [runCalls, RateLimiter.waitIfNeeded, List.length_cons,
        List.length_nil]
      push_cast
      linarith
    | cons c' cs' =>
      have h2 := ih (st.waitIfNeeded c.tRead c.tAfter) htail (by simp)
      have hrw : runCalls st (c :: c' :: cs')
          = runCalls (st.waitIfNeeded c.tRead c.tAfter) (c' :: cs') := rfl
      rw [hrw]
      simp only [RateLimiter.waitIfNeeded, List.length_cons] at h2 ⊢
      push_cast at h2 ⊢
      linarith

/-- C10: for every N ≥ 1, N consecutive `wait_if_needed` calls forming a
valid timing trace take total wall-clock time at least (N−1)·delay (from
the first call's initial time read to the last call's post-sleep read);
each call records its post-sleep time read as the new last-call time and
increments the call counter. -/
theorem rateLimiter_throttle_spacing (st : RateLimiter) (cs : List ThrottleCall)
    (hv : validTrace st cs) (hne : cs ≠ []) :
    ((cs.length : ℚ) - 1) * st.delay ≤ (cs.getLast hne).tAfter - (cs.head hne).tRead
      ∧ (runCalls st cs).callCount = st.callCount + cs.length
      ∧ (runCalls st cs).lastCallTime = (cs.getLast hne).tAfter := by
  refine ⟨?_, runCalls_callCount cs st, runCalls_lastCallTime cs st hne⟩
  cases cs with
  | nil => exact absurd rfl hne
  | cons c cs' =>
    obtain ⟨hsleep, _, htail⟩ := hv
    have hc : c.tRead ≤ c.tAfter := sleepSemantics_tRead_le st c.tRead c.tAfter hsleep
    cases cs' with
    | nil =>
      simp only [List.getLast_singleton, List.head_cons, List.length_cons,
        List.length_nil]
      push_cast
      linarith
    | cons c' rest =>
      have h2 := validTrace_advance (c' :: rest) (st.waitIfNeeded c.tRead c.tAfter)
        htail (by simp)
      have h3 := runCalls_lastCallTime (c' :: rest) (st.waitIfNeeded c.tRead c.tAfter)
        (by simp)
      have h4 : (runCalls (st.waitIfNeeded c.tRead c.tAfter) (c' :: rest)).delay
          = st.delay := by
        simpa [RateLimiter.waitIfNeeded] using
          runCalls_delay (c' :: rest) (st.waitIfNeeded c.tRead c.tAfter)
      rw [h3] at h2
      simp only [RateLimiter.waitIfNeeded] at h2
      rw [List.getLast_cons (by simp), List.head_cons]
      simp only [List.length_cons] at h2 ⊢
      push_cast at h2 ⊢
      linarith

/-- Witness for C10: a concrete three-call trace with delay 2 starting
at time 1/2 finishes at time 6, spending at least (3−1)·2 = 4 seconds,
with the counter advanced to 3. -/
theorem rateLimiter_throttle_spacing_witness :
    validTrace ⟨2, 0, 0⟩ [⟨1/2, 2⟩, ⟨2, 4⟩, ⟨9/2, 6⟩]
      ∧ (((3 : ℚ) - 1) * 2 ≤ 6 - 1/2
      ∧ (runCalls ⟨2, 0, 0⟩ [⟨1/2, 2⟩, ⟨2, 4⟩, ⟨9/2, 6⟩]).callCount = 0 + 3) := by
  have htrace : validTrace ⟨2, 0, 0⟩ [⟨1/2, 2⟩, ⟨2, 4⟩, ⟨9/2, 6⟩] := by
    simp only [validTrace, sleepSemantics, RateLimiter.waitIfNeeded]
    norm_num
  have h := rateLimiter_throttle_spacing ⟨2, 0, 0⟩ [⟨1/2, 2⟩, ⟨2, 4⟩, ⟨9/2, 6⟩]
    htrace (by simp)
  exact ⟨htrace, by norm_num, h.2.1⟩

/-- Every entry of the static response pool is nonempty. -/
theorem staticResponses_getD_ne_empty (k : ℕ) (hk : k < 5) :
    staticResponses.getD k "" ≠ "" := by
  interval_cases k <;> decide

/-- C4: when the gatekeeper classifies the message as a generic
greeting, `generate_response` returns the canned (cycled, nonempty)
reply with metadata source `"gatekeeper"` and `tokens_used = 0`, leaves
the rate limiter untouched, and performs no chain (retrieval/generation)
call. -/
theorem generateResponse_gatekeeper_short_circuit (st : PipelineState) (env : ChatEnv)
    (msg : String) (cid : Option String) (h : isGenericGreeting msg = true) :
    (generateResponse st env msg cid).metadata.source = "gatekeeper"
      ∧ (generateResponse st env msg cid).metadata.tokensUsed = .count 0
      ∧ (generateResponse st env msg cid).response
          = staticResponses.getD (st.responseIndex % staticResponses.length) ""
      ∧ (generateResponse st env msg cid).response ≠ ""
      ∧ (generateResponse st env msg cid).state.rateLimiter = st.rateLimiter
      ∧ (generateResponse st env msg cid).chainCalls = 0 := by
  have hlt : st.responseIndex % staticResponses.length < 5 :=
    Nat.mod_lt _ (by decide)
  simp only [generateResponse, h, if_true, getStaticResponse]
  refine ⟨?_, ?_, ?_, ?_, ?_, ?_⟩ <;>
    first
      | trivial
      | exact staticResponses_getD_ne_empty _ hlt

/-- Witness for C4: the message "Hi" is classified as a greeting and is
answered from the static pool with zero tokens and no chain call. -/
theorem generateResponse_gatekeeper_witness :
    isGenericGreeting "Hi" = true
      ∧ (generateResponse ⟨0, ⟨2, 0, 0⟩⟩ ⟨"t0", 0, 0, 1, .error "unused"⟩ "Hi" none).metadata.source
          = "gatekeeper"
      ∧ (generateResponse ⟨0, ⟨2, 0, 0⟩⟩ ⟨"t0", 0, 0, 1, .error "unused"⟩ "Hi" none).chainCalls
          = 0 := by
  have hg : isGenericGreeting "Hi" = true := by decide
  have h := generateResponse_gatekeeper_short_circuit ⟨0, ⟨2, 0, 0⟩⟩
    ⟨"t0", 0, 0, 1, .error "unused"⟩ "Hi" none hg
  exact ⟨hg, h.1, h.2.2.2.2.2⟩

/-- C5: when the message is not a greeting and the chain call (rate
limiting, retrieval or generation step) raises, `generate_response`
returns the nonempty static fallback reply with metadata source
`"error_fallback"` and the exception text recorded in the metadata.  The
embedding is a total function, so no exception escapes to the caller on
any input. -/
theorem generateResponse_error_fallback (st : PipelineState) (env : ChatEnv)
    (msg : String) (cid : Option String) (e : String)
    (hg : isGenericGreeting msg = false) (he : env.chainResult = .error e) :
    (generateResponse st env msg cid).response = fallbackReply
      ∧ fallbackReply ≠ ""
      ∧ (generateResponse st env msg cid).metadata.source = "error_fallback"
      ∧ (generateResponse st env msg cid).metadata.error = some e := by
  simp only [generateResponse, hg, Bool.false_eq_true, if_false, he]
  refine ⟨?_, ?_, ?_, ?_⟩ <;> trivial

/-- Witness for C5: a retrieval failure ("Pinecone unavailable") on a
substantive message yields the static fallback with the error captured
in the metadata. -/
theorem generateResponse_error_fallback_witness :
    isGenericGreeting "When is the next event?" = false
      ∧ (generateResponse ⟨0, ⟨2, 0, 0⟩⟩ ⟨"t0", 0, 2, 5, .error "Pinecone unavailable"⟩
          "When is the next event?" none).metadata.source = "error_fallback"
      ∧ (generateResponse ⟨0, ⟨2, 0, 0⟩⟩ ⟨"t0", 0, 2, 5, .error "Pinecone unavailable"⟩
          "When is the next event?" none).metadata.error = some "Pinecone unavailable" := by
  have hg : isGenericGreeting "When is the next event?" = false := by decide
  have h := generateResponse_error_fallback ⟨0, ⟨2, 0, 0⟩⟩
    ⟨"t0", 0, 2, 5, .error "Pinecone unavailable"⟩ "When is the next event?" none
    "Pinecone unavailable" hg rfl
  exact ⟨hg, h.2.2.1, h.2.2.2⟩

/-- C6: `should_auto_reply` implements exactly the ordered five-gate
policy — (1) global enabled flag, (2) staleness, (3) business hours,
(4) per-conversation hourly cap, (5) blacklist keywords — returning
`(false, reason)` for the first failing gate and `(true, "OK")`
otherwise.  In particular a disabled flag yields the "disabled" reason
whatever the other gates would say, and a stale conversation yields the
staleness reason regardless of the rate-limit state. -/
theorem shouldAutoReply_gate_order (settings : Option ChatSettings) (now : ℤ)
    (currentHHMM : String) (messageText : String) (conversation : DMConversation)
    (messages : List DMMessage) :
    shouldAutoReply settings now currentHHMM messageText conversation messages
      = shouldAutoReplyGates settings now currentHHMM messageText conversation messages := by
  cases settings with
  | none => rfl
  | some s =>
    simp only [shouldAutoReply, shouldAutoReplyGates, firstFailingGate]
    cases hse : s.autoReplyEnabled with
    | false => simp only [Bool.not_false, if_true, Bool.false_eq_true, if_false]
    | true =>
      simp only [Bool.not_true, Bool.false_eq_true, if_false, if_true]
      have hsf : (match conversation.lastMessageAt with
          | some t => decide (now - 300 ≤ t)
          | none => true)
          = !(match conversation.lastMessageAt with
          | some t => decide (t < now - 300)
          | none => false) := by
        cases conversation.lastMessageAt with
        | none => rfl
        | some t =>
          rw [← decide_not, decide_eq_decide]
          omega
      rw [hsf]
      cases hst : (match conversation.lastMessageAt with
          | some t => decide (t < now - 300)
          | none => false) with
      | true => simp only [if_true, Bool.not_true, Bool.false_eq_true, if_false]
      | false =>
        simp only [Bool.not_false, if_true, Bool.false_eq_true, if_false]
        cases hbh : isWithinBusinessHours (some s) currentHHMM with
        | false => simp only [Bool.not_false, if_true, Bool.false_eq_true, if_false]
        | true =>
          simp only [Bool.not_true, Bool.false_eq_true, if_false, if_true]
          set recent := (messages.filter fun m =>
            m.conversationId == conversation.id && m.isAutoReply
              && decide (now - 3600 ≤ m.createdAt)).length with hrec
          by_cases hr : s.replyRateLimit ≤ recent
          · have h1 : decide (recent < s.replyRateLimit) = false :=
              decide_eq_false (by omega)
            rw [if_pos hr, h1]
            simp only [Bool.false_eq_true, if_false]
          · have h1 : decide (recent < s.replyRateLimit) = true :=
              decide_eq_true (by omega)
            rw [if_neg hr, h1]
            simp only [if_true]
            cases hbl : s.blacklistKeywords with
            | none => rfl
            | some blacklist =>
              cases hfind : blacklist.find? (fun kw =>
                  isSubListOf (pyLower kw).data (pyLower messageText).data) with
              | none => dsimp only; rw [hfind]; rfl
              | some kw => dsimp only; rw [hfind]; rfl

/-- String append acts componentwise on the character data. -/
theorem string_data_append (a b : String) : (a ++ b).data = a.data ++ b.data := by
  cases a; cases b; rfl

/-- Two strings with distinct known first characters are distinct. -/
theorem str_ne_of_head (x y : String) (c d : Char) (hx : x.data.take 1 = [c])
    (hy : y.data.take 1 = [d]) (hcd : c ≠ d) : x ≠ y := by
  intro h
  rw [h, hy] at hx
  injection hx with h1
  exact hcd h1.symm

/-- Counting stored copies of a remote message id distributes over
append. -/
theorem countByMid_append (a b : List DMMessage) (mid : String) :
    countByMid (a ++ b) mid = countByMid a mid + countByMid b mid := by
  simp [countByMid, List.filter_append]

/-- A zero count means the duplicate check comes back false. -/
theorem any_mid_false_of_count_zero (msgs : List DMMessage) (mid : String)
    (h : countByMid msgs mid = 0) :
    (msgs.any fun m => m.instagramMessageId == some mid) = false := by
  have h0 : msgs.filter (fun m => m.instagramMessageId == some mid) = [] :=
    List.length_eq_zero.mp h
  rw [List.any_eq_false]
  intro m hm hp
  have hmem : m ∈ msgs.filter (fun m => m.instagramMessageId == some mid) :=
    List.mem_filter.mpr ⟨hm, hp⟩
  rw [h0] at hmem
  exact absurd hmem (List.not_mem_nil m)

/-- A positive count means the duplicate check comes back true. -/
theorem any_mid_true_of_count_pos (msgs : List DMMessage) (mid : String)
    (h : 0 < countByMid msgs mid) :
    (msgs.any fun m => m.instagramMessageId == some mid) = true := by
  simp only [countByMid] at h
  have hne : msgs.filter (fun m => m.instagramMessageId == some mid) ≠ [] := by
    intro he
    rw [he] at h
    exact absurd h (by simp)
  obtain ⟨m, hm⟩ := List.exists_mem_of_ne_nil _ hne
  have := List.mem_filter.mp hm
  exact List.any_eq_true.mpr ⟨m, this.1, this.2⟩

/-- Updating one conversation row by id preserves the existence of a row
for the given remote user, as long as the replacement row keeps a
matching user id. -/
theorem exists_user_preserved (l : List DMConversation) (cid : ℕ)
    (conv' : DMConversation) (senderId : String)
    (h : ∃ c ∈ l, (c.instagramUserId == senderId) = true)
    (huser : (conv'.instagramUserId == senderId) = true) :
    ∃ c ∈ l.map (fun c => if c.id == cid then conv' else c),
      (c.instagramUserId == senderId) = true := by
  obtain ⟨c, hc, hp⟩ := h
  refine ⟨if c.id == cid then conv' else c, List.mem_map_of_mem _ hc, ?_⟩
  split
  · exact huser
  · exact hp

/-- A conversation row matching the remote user makes the lookup
succeed. -/
theorem find?_user_of_exists (l : List DMConversation) (senderId : String)
    (h : ∃ c ∈ l, (c.instagramUserId == senderId) = true) :
    ∃ c', l.find? (fun c => c.instagramUserId == senderId) = some c' := by
  cases hf : l.find? (fun c => c.instagramUserId == senderId) with
  | some c' => exact ⟨c', rfl⟩
  | none =>
    obtain ⟨c, hc, hp⟩ := h
    have := List.find?_eq_none.mp hf c hc
    simp [hp] at this

/-- When the conversation exists and the normalized id is already
stored, `process_instagram_message` returns on the duplicate path with
the state unchanged. -/
theorem processInstagramMessage_duplicate_path (env : ProcessEnv) (s : MessagingState)
    (senderId : String) (messageId : Option String) (messageText : String)
    (timestamp : Option ℤ)
    (hfind : ∃ c', s.conversations.find? (fun c => c.instagramUserId == senderId) = some c')
    (hdup : (s.messages.any fun m => m.instagramMessageId
      == some (normalizeMessageId env.hashHex messageId senderId timestamp
        env.fallbackTime)) = true) :
    processInstagramMessage env s senderId messageId messageText timestamp
      = (s, { success := true, replied := false, reason := "duplicate_message" }) := by
  obtain ⟨c', hc⟩ := hfind
  simp only [processInstagramMessage, hc, hdup, if_true]

/-- C1: delivering the same inbound message twice (same sender, message
id, text and timestamp, with equal normalized message ids) persists
exactly one DMMessage row carrying that remote id; the second call
detects the duplicate by the remote-message-id key, changes nothing, and
reports `replied = false` with reason `"duplicate_message"`, so no reply
is triggered. -/
theorem processInstagramMessage_duplicate_idempotent
    (env1 env2 : ProcessEnv) (st : MessagingState) (senderId : String)
    (messageId : Option String) (messageText : String) (timestamp : Option ℤ)
    (hmid : normalizeMessageId env2.hashHex messageId senderId timestamp env2.fallbackTime
      = normalizeMessageId env1.hashHex messageId senderId timestamp env1.fallbackTime)
    (hfresh : countByMid st.messages
      (normalizeMessageId env1.hashHex messageId senderId timestamp env1.fallbackTime) = 0) :
    countByMid
        (processInstagramMessage env1 st senderId messageId messageText timestamp).1.messages
        (normalizeMessageId env1.hashHex messageId senderId timestamp env1.fallbackTime) = 1
      ∧ processInstagramMessage env2
          (processInstagramMessage env1 st senderId messageId messageText timestamp).1
          senderId messageId messageText timestamp
        = ((processInstagramMessage env1 st senderId messageId messageText timestamp).1,
            { success := true, replied := false, reason := "duplicate_message" }) := by
  set mid := normalizeMessageId env1.hashHex messageId senderId timestamp env1.fallbackTime
    with hmiddef
  have hany := any_mid_false_of_count_zero st.messages mid hfresh
  have hshape : ∃ s1 res1,
      processInstagramMessage env1 st senderId messageId messageText timestamp = (s1, res1)
        ∧ countByMid s1.messages mid = 1
        ∧ ∃ c ∈ s1.conversations, (c.instagramUserId == senderId) = true := by
    cases hfind : st.conversations.find? (fun c => c.instagramUserId == senderId) with
    | some c0 =>
      have hp0 : (c0.instagramUserId == senderId) = true := by
        have h := List.find?_some hfind
        simpa using h
      simp only [processInstagramMessage, hfind, hany, Bool.false_eq_true, if_false]
      refine ⟨_, _, rfl, ?_, ?_⟩
      · rw [countByMid_append, hfresh]
        simp [countByMid]
      · exact exists_user_preserved st.conversations c0.id _ senderId
          ⟨c0, List.mem_of_find?_eq_some hfind, hp0⟩ hp0
    | none =>
      simp only [processInstagramMessage, hfind, hany, Bool.false_eq_true, if_false]
      refine ⟨_, _, rfl, ?_, ?_⟩
      · rw [countByMid_append, hfresh]
        simp [countByMid]
      · apply exists_user_preserved
        · exact ⟨_, List.mem_append_right _ (List.mem_singleton_self _), by simp⟩
        · simp
  obtain ⟨s1, res1, heq, hcount, hexists⟩ := hshape
  rw [heq]
  refine ⟨hcount, ?_⟩
  have hfind2 := find?_user_of_exists s1.conversations senderId hexists
  have hdup2 : (s1.messages.any fun m => m.instagramMessageId
      == some (normalizeMessageId env2.hashHex messageId senderId timestamp
        env2.fallbackTime)) = true := by
    rw [hmid]
    exact any_mid_true_of_count_pos _ _ (by omega)
  exact processInstagramMessage_duplicate_path env2 s1 senderId messageId messageText
    timestamp hfind2 hdup2

/-- Witness for C1: on an empty database, processing the same message
(id "m1") twice stores one row and the second call reports
`duplicate_message`. -/
theorem processInstagramMessage_duplicate_idempotent_witness :
    countByMid ([] : List DMMessage)
        (normalizeMessageId (fun _ => "h") (some "m1") "u1" (some 5) 0) = 0
      ∧ countByMid
          (processInstagramMessage
            (⟨fun _ => "h", 0, none, 0, 0, "12:00", none⟩ : ProcessEnv)
            ⟨[], [], 0⟩ "u1" (some "m1") "hello" (some 5)).1.messages
          (normalizeMessageId (fun _ => "h") (some "m1") "u1" (some 5) 0) = 1
      ∧ (processInstagramMessage
            (⟨fun _ => "h", 0, none, 0, 0, "12:00", none⟩ : ProcessEnv)
            (processInstagramMessage
              (⟨fun _ => "h", 0, none, 0, 0, "12:00", none⟩ : ProcessEnv)
              ⟨[], [], 0⟩ "u1" (some "m1") "hello" (some 5)).1
            "u1" (some "m1") "hello" (some 5)).2.reason = "duplicate_message" := by
  have h := processInstagramMessage_duplicate_idempotent
    (⟨fun _ => "h", 0, none, 0, 0, "12:00", none⟩ : ProcessEnv)
    (⟨fun _ => "h", 0, none, 0, 0, "12:00", none⟩ : ProcessEnv)
    ⟨[], [], 0⟩ "u1" (some "m1") "hello" (some 5) rfl rfl
  exact ⟨rfl, h.1, by rw [h.2]⟩

/-- On the path through `process_instagram_message`, `should_auto_reply`
never returns the staleness reason when the check happens within the
5-minute window of the update it follows. -/
theorem shouldAutoReply_reason_ne_stale (settings : Option ChatSettings) (now : ℤ)
    (currentHHMM : String) (messageText : String) (conversation : DMConversation)
    (messages : List DMMessage) (t : ℤ)
    (hlast : conversation.lastMessageAt = some t) (hclock : now ≤ t + 300) :
    (shouldAutoReply settings now currentHHMM messageText conversation messages).2
      ≠ "Message too old (> 5 minutes)" := by
  cases settings with
  | none => simp only [shouldAutoReply]; decide
  | some s =>
    simp only [shouldAutoReply]
    cases hse : s.autoReplyEnabled with
    | false => simp only [Bool.not_false, if_true]; decide
    | true =>
      simp only [Bool.not_true, Bool.false_eq_true, if_false, hlast]
      have hstale : decide (t < now - 300) = false := decide_eq_false (by omega)
      rw [hstale]
      simp only [Bool.false_eq_true, if_false]
      split
      · decide
      · split
        · refine str_ne_of_head _ _ 'R' 'M' ?_ rfl (by decide)
          rw [string_data_append, string_data_append]
          rfl
        · cases s.blacklistKeywords with
          | none => dsimp only; decide
          | some blacklist =>
            dsimp only
            cases blacklist.find? (fun kw =>
                isSubListOf (pyLower kw).data (pyLower messageText).data) with
            | none => decide
            | some kw =>
              dsimp only
              refine str_ne_of_head _ _ 'B' 'M' ?_ rfl (by decide)
              rw [string_data_append]
              rfl

/-- C8: for a non-duplicate inbound message, the conversation's
`last_message_at` is refreshed to the update time before
`should_auto_reply` runs, so as long as the check happens within the
5-minute staleness window of that update (the same call), the message is
never rejected for staleness. -/
theorem processInstagramMessage_staleness_gate_passes (env : ProcessEnv)
    (st : MessagingState) (senderId : String) (messageId : Option String)
    (messageText : String) (timestamp : Option ℤ)
    (hfresh : countByMid st.messages
      (normalizeMessageId env.hashHex messageId senderId timestamp env.fallbackTime) = 0)
    (hclock : env.nowCheck ≤ env.nowUpdate + 300) :
    (processInstagramMessage env st senderId messageId messageText timestamp).2.reason
      ≠ "Message too old (> 5 minutes)" := by
  have hany := any_mid_false_of_count_zero st.messages _ hfresh
  cases hfind : st.conversations.find? (fun c => c.instagramUserId == senderId) with
  | some c0 =>
    simp only [processInstagramMessage, hfind, hany, Bool.false_eq_true, if_false]
    split
    · decide
    · exact shouldAutoReply_reason_ne_stale env.settings env.nowCheck env.currentHHMM
        messageText _ _ env.nowUpdate rfl hclock
  | none =>
    simp only [processInstagramMessage, hfind, hany, Bool.false_eq_true, if_false]
    split
    · decide
    · exact shouldAutoReply_reason_ne_stale env.settings env.nowCheck env.currentHHMM
        messageText _ _ env.nowUpdate rfl hclock

/-- Witness for C8: a fresh message on an empty database is not
rejected for staleness (here it is skipped because auto-reply is
disabled, a different reason). -/
theorem processInstagramMessage_staleness_gate_passes_witness :
    countByMid ([] : List DMMessage)
        (normalizeMessageId (fun _ => "h") (some "m9") "u2" (some 7) 0) = 0
      ∧ (0 : ℤ) ≤ 0 + 300
      ∧ (processInstagramMessage
          (⟨fun _ => "h", 0, none, 0, 0, "12:00", none⟩ : ProcessEnv)
          ⟨[], [], 0⟩ "u2" (some "m9") "hi there" (some 7)).2.reason
        ≠ "Message too old (> 5 minutes)" := by
  refine ⟨rfl, by norm_num, ?_⟩
  exact processInstagramMessage_staleness_gate_passes
    (⟨fun _ => "h", 0, none, 0, 0, "12:00", none⟩ : ProcessEnv)
    ⟨[], [], 0⟩ "u2" (some "m9") "hi there" (some 7) rfl (by norm_num)

/-- A satisfied `any` yields a successful `find?`. -/
theorem find?_isSome_of_any {α} (p : α → Bool) (l : List α) (h : l.any p = true) :
    ∃ a, l.find? p = some a := by
  cases hf : l.find? p with
  | some a => exact ⟨a, rfl⟩
  | none =>
    obtain ⟨x, hx, hpx⟩ := List.any_eq_true.mp h
    have := List.find?_eq_none.mp hf x hx
    simp [hpx] at this

/-- Bumping a trigger counter changes no keyword or active flag, so
keyword matching over the list is untouched. -/
theorem bumpFirstTrigger_any (p : CommentTrigger → Bool) (txt : String)
    (l : List CommentTrigger) :
    (bumpFirstTrigger p l).any (triggerMatches txt) = l.any (triggerMatches txt) := by
  induction l with
  | nil => rfl
  | cons t ts ih =>
    simp only [bumpFirstTrigger]
    split
    · rfl
    · simp only [List.any_cons, ih]

/-- Bumping the matched trigger adds exactly one to the total trigger
count. -/
theorem bumpFirstTrigger_sum (p : CommentTrigger → Bool) (l : List CommentTrigger)
    (h : l.any p = true) :
    ((bumpFirstTrigger p l).map (·.timesTriggered)).sum
      = (l.map (·.timesTriggered)).sum + 1 := by
  induction l with
  | nil => simp at h
  | cons t ts ih =>
    simp only [bumpFirstTrigger]
    split
    · simp only [List.map_cons, List.sum_cons]
      omega
    · next hp =>
      simp only [List.any_cons, hp, Bool.false_or] at h
      simp only [List.map_cons, List.sum_cons, ih h]
      omega

/-- Bumping a trigger counter preserves the keyword column. -/
theorem bumpFirstTrigger_keywords (p : CommentTrigger → Bool) (l : List CommentTrigger) :
    (bumpFirstTrigger p l).map (·.keyword) = l.map (·.keyword) := by
  induction l with
  | nil => rfl
  | cons t ts ih =>
    simp only [bumpFirstTrigger]
    split
    · rfl
    · simp only [List.map_cons, ih]

/-- An empty guard count makes the duplicate check come back false. -/
theorem trackers_any_false_of_count_zero (st : AutomationState) (postId userId : String)
    (h : countTrackers st postId userId = 0) :
    (st.trackers.any fun tr => tr.postId == postId && tr.userId == userId) = false := by
  have h0 : st.trackers.filter (fun tr => tr.postId == postId && tr.userId == userId) = [] :=
    List.length_eq_zero.mp h
  rw [List.any_eq_false]
  intro tr htr hp
  have hmem : tr ∈ st.trackers.filter (fun tr => tr.postId == postId && tr.userId == userId) :=
    List.mem_filter.mpr ⟨htr, hp⟩
  rw [h0] at hmem
  exact absurd hmem (List.not_mem_nil tr)

/-- Appending the fresh guard row to a clean table leaves exactly one
matching row. -/
theorem countTrackers_append_one (trs : List CommentDMTracker) (postId userId kw : String)
    (h : trs.filter (fun tr => tr.postId == postId && tr.userId == userId) = []) :
    ((trs ++ [(⟨postId, userId, kw⟩ : CommentDMTracker)]).filter
      (fun tr => tr.postId == postId && tr.userId == userId)).length = 1 := by
  rw [List.filter_append, h]
  simp

/-- C3: in the comment-to-DM path, the guard row is recorded and the
matched rule's trigger counter incremented only when the DM send reports
success.  A failed send leaves the guard table and the trigger counters
untouched (only a `failed_to_send` log is appended), and a subsequent
invocation with a successful send still sends the DM and records exactly
one guard row — the retry remains possible. -/
theorem commentToDm_guard_only_on_success (st : AutomationState) (env : CommentDmEnv)
    (commentText userId username postId postCaption commentId : String)
    (hm : st.triggers.any (triggerMatches commentText) = true)
    (hclean : countTrackers st postId userId = 0) :
    (env.sendOk = false →
        (processCommentToDm st env commentText userId username postId postCaption
            commentId).state.trackers = st.trackers
          ∧ (processCommentToDm st env commentText userId username postId postCaption
              commentId).state.triggers = st.triggers
          ∧ (processCommentToDm st env commentText userId username postId postCaption
              commentId).sendAttempted = true
          ∧ (processCommentToDm st env commentText userId username postId postCaption
              commentId).sendSucceeded = false
          ∧ ∀ env' : CommentDmEnv, env'.sendOk = true →
              (processCommentToDm
                  (processCommentToDm st env commentText userId username postId
                    postCaption commentId).state
                  env' commentText userId username postId postCaption
                  commentId).sendSucceeded = true
                ∧ countTrackers
                    (processCommentToDm
                      (processCommentToDm st env commentText userId username postId
                        postCaption commentId).state
                      env' commentText userId username postId postCaption
                      commentId).state postId userId = 1)
      ∧ (env.sendOk = true →
          countTrackers (processCommentToDm st env commentText userId username postId
            postCaption commentId).state postId userId = 1
            ∧ ((processCommentToDm st env commentText userId username postId postCaption
                commentId).state.triggers.map (·.timesTriggered)).sum
              = (st.triggers.map (·.timesTriggered)).sum + 1
            ∧ (processCommentToDm st env commentText userId username postId postCaption
                commentId).sendSucceeded = true) := by
  obtain ⟨t1, hf1⟩ := find?_isSome_of_any _ _ hm
  have hanytr := trackers_any_false_of_count_zero st postId userId hclean
  have hcnt0 : st.trackers.filter (fun tr => tr.postId == postId && tr.userId == userId)
      = [] := List.length_eq_zero.mp hclean
  constructor
  · intro hsend
    simp only [processCommentToDm, hf1, hanytr, Bool.false_eq_true, if_false, hsend]
    refine ⟨by trivial, by trivial, by trivial, by trivial, ?_⟩
    intro env' hsend'
    simp only [processCommentToDm, hf1, hanytr, Bool.false_eq_true, if_false, hsend',
      if_true]
    refine ⟨by trivial, ?_⟩
    simp only [countTrackers]
    exact countTrackers_append_one st.trackers postId userId _ hcnt0
  · intro hsend
    simp only [processCommentToDm, hf1, hanytr, Bool.false_eq_true, if_false, hsend,
      if_true]
    refine ⟨?_, ?_, by trivial⟩
    · simp only [countTrackers]
      exact countTrackers_append_one st.trackers postId userId _ hcnt0
    · exact bumpFirstTrigger_sum _ _ hm

/-- Witness for C3: one active trigger "INFO", a failed send leaves no
guard row; a successful send stores one. -/
theorem commentToDm_guard_only_on_success_witness :
    ((⟨[⟨"INFO", "Check your DMs!", false, true, 0⟩], [], []⟩ :
        AutomationState).triggers.any (triggerMatches "please send INFO")) = true
      ∧ countTrackers ⟨[⟨"INFO", "Check your DMs!", false, true, 0⟩], [], []⟩ "p1" "u1" = 0
      ∧ (processCommentToDm ⟨[⟨"INFO", "Check your DMs!", false, true, 0⟩], [], []⟩
          ⟨.falsy, false, some "network error"⟩ "please send INFO" "u1" "alice" "p1" "cap"
          "c1").state.trackers = []
      ∧ (processCommentToDm ⟨[⟨"INFO", "Check your DMs!", false, true, 0⟩], [], []⟩
          ⟨.falsy, true, none⟩ "please send INFO" "u1" "alice" "p1" "cap"
          "c1").sendSucceeded = true := by
  have hm : ((⟨[⟨"INFO", "Check your DMs!", false, true, 0⟩], [], []⟩ :
      AutomationState).triggers.any (triggerMatches "please send INFO")) = true := by decide
  have h1 := commentToDm_guard_only_on_success
    ⟨[⟨"INFO", "Check your DMs!", false, true, 0⟩], [], []⟩
    ⟨.falsy, false, some "network error"⟩ "please send INFO" "u1" "alice" "p1" "cap" "c1"
    hm rfl
  have h2 := commentToDm_guard_only_on_success
    ⟨[⟨"INFO", "Check your DMs!", false, true, 0⟩], [], []⟩
    ⟨.falsy, true, none⟩ "please send INFO" "u1" "alice" "p1" "cap" "c1" hm rfl
  exact ⟨hm, rfl, (h1.1 rfl).1, (h2.2 rfl).2.2⟩

/-- C2: for a fixed (post, user), two comment-to-DM invocations (both
matching an active keyword rule, no pre-existing guard row) deliver at
most one successful DM and leave at most one guard row; moreover, when
the first send succeeded, the second invocation finds the guard row,
appends a `duplicate_prevented` log entry, and stops before attempting a
send. -/
theorem commentToDm_duplicate_guard (st : AutomationState) (env1 env2 : CommentDmEnv)
    (c1 c2 userId username postId postCaption cid1 cid2 : String)
    (hm1 : st.triggers.any (triggerMatches c1) = true)
    (hm2 : st.triggers.any (triggerMatches c2) = true)
    (hclean : countTrackers st postId userId = 0) :
    ((if (processCommentToDm st env1 c1 userId username postId postCaption
          cid1).sendSucceeded then 1 else 0)
        + (if (processCommentToDm
              (processCommentToDm st env1 c1 userId username postId postCaption
                cid1).state
              env2 c2 userId username postId postCaption cid2).sendSucceeded
            then 1 else 0) ≤ 1)
      ∧ countTrackers
          (processCommentToDm
            (processCommentToDm st env1 c1 userId username postId postCaption cid1).state
            env2 c2 userId username postId postCaption cid2).state postId userId ≤ 1
      ∧ ((processCommentToDm st env1 c1 userId username postId postCaption
            cid1).sendSucceeded = true →
          (processCommentToDm
              (processCommentToDm st env1 c1 userId username postId postCaption
                cid1).state
              env2 c2 userId username postId postCaption cid2).sendAttempted = false
            ∧ (processCommentToDm
                (processCommentToDm st env1 c1 userId username postId postCaption
                  cid1).state
                env2 c2 userId username postId postCaption cid2).state.logs
              = (processCommentToDm st env1 c1 userId username postId postCaption
                  cid1).state.logs
                ++ [⟨"comment_to_dm", "duplicate_prevented", true,
                    some "DM already sent to this user for this post", none, userId,
                    postId, cid2⟩]) := by
  obtain ⟨t1, hf1⟩ := find?_isSome_of_any _ _ hm1
  have hanytr := trackers_any_false_of_count_zero st postId userId hclean
  have hcnt0 : st.trackers.filter (fun tr => tr.postId == postId && tr.userId == userId)
      = [] := List.length_eq_zero.mp hclean
  cases hsend1 : env1.sendOk with
  | true =>
    simp only [processCommentToDm, hf1, hanytr, Bool.false_eq_true, if_false, hsend1,
      if_true]
    have hm2' : (bumpFirstTrigger (triggerMatches c1) st.triggers).any
        (triggerMatches c2) = true := by
      rw [bumpFirstTrigger_any]
      exact hm2
    obtain ⟨t2, hf2⟩ := find?_isSome_of_any _ _ hm2'
    have hdup2 : ((st.trackers ++ [(⟨postId, userId, t1.keyword⟩ : CommentDMTracker)]).any
        fun tr => tr.postId == postId && tr.userId == userId) = true := by
      refine List.any_eq_true.mpr ⟨⟨postId, userId, t1.keyword⟩, ?_, ?_⟩
      · exact List.mem_append_right _ (List.mem_singleton_self _)
      · simp
    simp only [processCommentToDm, hf2, hdup2, if_true]
    refine ⟨by norm_num, ?_, fun _ => ⟨by trivial, by trivial⟩⟩
    simp only [countTrackers]
    rw [List.filter_append, hcnt0]
    simp
  | false =>
    simp only [processCommentToDm, hf1, hanytr, Bool.false_eq_true, if_false, hsend1,
      if_false]
    obtain ⟨t2, hf2⟩ := find?_isSome_of_any _ _ hm2
    simp only [processCommentToDm, hf2, hanytr, Bool.false_eq_true, if_false]
    cases hsend2 : env2.sendOk with
    | true =>
      simp only [if_true]
      refine ⟨by norm_num, ?_, by simp⟩
      simp only [countTrackers]
      rw [List.filter_append, hcnt0]
      simp
    | false =>
      simp only [Bool.false_eq_true, if_false]
      refine ⟨by norm_num, ?_, by simp⟩
      simp only [countTrackers, hcnt0]
      simp

/-- Witness for C2: two "INFO" comments by the same user on the same
post, both sends reported successful; one DM is delivered, one guard row
exists, and the second invocation is stopped by the guard. -/
theorem commentToDm_duplicate_guard_witness :
    ((⟨[⟨"INFO", "Check your DMs!", false, true, 0⟩], [], []⟩ :
        AutomationState).triggers.any (triggerMatches "INFO please") = true)
      ∧ countTrackers
          (processCommentToDm
            (processCommentToDm ⟨[⟨"INFO", "Check your DMs!", false, true, 0⟩], [], []⟩
              ⟨.falsy, true, none⟩ "INFO please" "u1" "alice" "p1" "cap" "c1").state
            ⟨.falsy, true, none⟩ "more INFO" "u1" "alice" "p1" "cap" "c2").state
          "p1" "u1" ≤ 1
      ∧ (processCommentToDm
          (processCommentToDm ⟨[⟨"INFO", "Check your DMs!", false, true, 0⟩], [], []⟩
            ⟨.falsy, true, none⟩ "INFO please" "u1" "alice" "p1" "cap" "c1").state
          ⟨.falsy, true, none⟩ "more INFO" "u1" "alice" "p1" "cap" "c2").sendAttempted
        = false := by
  have hm1 : ((⟨[⟨"INFO", "Check your DMs!", false, true, 0⟩], [], []⟩ :
      AutomationState).triggers.any (triggerMatches "INFO please") = true) := by decide
  have hm2 : ((⟨[⟨"INFO", "Check your DMs!", false, true, 0⟩], [], []⟩ :
      AutomationState).triggers.any (triggerMatches "more INFO") = true) := by decide
  have h := commentToDm_duplicate_guard
    ⟨[⟨"INFO", "Check your DMs!", false, true, 0⟩], [], []⟩
    ⟨.falsy, true, none⟩ ⟨.falsy, true, none⟩ "INFO please" "more INFO" "u1" "alice"
    "p1" "cap" "c1" "c2" hm1 hm2 rfl
  refine ⟨hm1, h.2.1, (h.2.2 ?_).1⟩
  rfl

/-- Counterexample for C7: a generation output that is not JSON at all
("I cannot extract those details." — `loads` rejects it) does NOT
make `ingest_post` abort: the fallback substitutes the default
Unknown/Unknown/General-post facts, ingestion reports success, and a
document IS upserted — contradicting the claim that malformed JSON
yields `false` with no upsert. -/
theorem ingestPost_malformed_json_counterexample :
    loads "I cannot extract those details." = none
      ∧ (ingestPost ([] : KnowledgeStore) "post1" "http://img" "Event caption"
          "instagram" none (some [1]) (.ok "I cannot extract those details.")
          "t0").1 = true
      ∧ (ingestPost ([] : KnowledgeStore) "post1" "http://img" "Event caption"
          "instagram" none (some [1]) (.ok "I cannot extract those details.")
          "t0").2.length = 1 := by
  exact ⟨rfl, rfl, rfl⟩

/-- C7 (amended): during ingestion of a single post (image download
succeeded), when the recovered JSON span parses but lacks any of the
keys date/venue/topic, `ingest_post` aborts and returns false without
upserting; but when the generation output contains no brace-delimited
span at all, or the recovered span fails to parse as JSON, the default
`{"date":"Unknown","venue":"Unknown","topic":"General post"}` facts are
substituted and ingestion proceeds, upserting the default document. -/
theorem ingestPost_extraction_validation (store : KnowledgeStore)
    (postId imageUrl caption platform ingestedAt : String) (sched : Option String)
    (bytes : List ℕ) (out : String) (hbytes : bytes ≠ []) :
    (∀ v : JValue, loads (fallbackCaptionExtraction (.ok out)) = some v →
        pyAllKeysIn ["date", "venue", "topic"] v ≠ some true →
        ingestPost store postId imageUrl caption platform sched (some bytes) (.ok out)
          ingestedAt = (false, store))
      ∧ ((((pyStrip out).data.contains '\x7b' && (pyStrip out).data.contains '\x7d')
              = false
            ∨ loads (jsonSpan (pyStrip out).data) = none) →
          ingestPost store postId imageUrl caption platform sched (some bytes) (.ok out)
              ingestedAt
            = (true, upsertDoc store postId
                ("Date: Unknown\nVenue: Unknown\nTopic: General post\nCaption: "
                  ++ ⟨caption.data.take 200⟩)
                ⟨postId, platform, .jstr "Unknown", .jstr "Unknown",
                  .jstr "General post", ingestedAt, sched⟩)) := by
  have hbe : bytes.isEmpty = false := by
    cases bytes with
    | nil => exact absurd rfl hbytes
    | cons _ _ => rfl
  constructor
  · intro v hv hkeys
    have hext : extractKeyFacts (.ok out) = none := by
      simp only [extractKeyFacts, hv]
    simp only [ingestPost, hbe, Bool.false_eq_true, if_false, hext]
  · intro hmal
    have hfce : fallbackCaptionExtraction (.ok out) = defaultFactsJson := by
      rcases hmal with hnb | hspan
      · simp only [fallbackCaptionExtraction, hnb, Bool.false_eq_true, if_false]
      · cases hbr : ((pyStrip out).data.contains '\x7b'
            && (pyStrip out).data.contains '\x7d') with
        | false =>
          simp only [fallbackCaptionExtraction, hbr, Bool.false_eq_true, if_false]
        | true =>
          simp only [fallbackCaptionExtraction, hbr, if_true, hspan]
    have hload : loads defaultFactsJson
        = some (.jobj [("date", .jstr "Unknown"), ("venue", .jstr "Unknown"),
            ("topic", .jstr "General post")]) := rfl
    have hext : extractKeyFacts (.ok out)
        = some (.jobj [("date", .jstr "Unknown"), ("venue", .jstr "Unknown"),
            ("topic", .jstr "General post")]) := by
      simp only [extractKeyFacts, hfce, hload]
      rfl
    simp only [ingestPost, hbe, Bool.false_eq_true, if_false, hext]
    rfl

/-- Witness for C7 (amended): valid JSON missing the venue/topic keys
aborts ingestion with no document stored, while a brace-free model
output and a brace-delimited but unparseable span both succeed and
store the default document. -/
theorem ingestPost_extraction_validation_witness :
    ([1] : List ℕ) ≠ []
      ∧ loads (fallbackCaptionExtraction (.ok "\x7b\"date\":\"2025-01-01\"\x7d"))
          = some (.jobj [("date", .jstr "2025-01-01")])
      ∧ ingestPost ([] : KnowledgeStore) "p1" "u" "cap" "instagram" none (some [1])
          (.ok "\x7b\"date\":\"2025-01-01\"\x7d") "t0" = (false, [])
      ∧ (ingestPost ([] : KnowledgeStore) "p2" "u" "cap" "instagram" none (some [1])
          (.ok "no json at all") "t0").1 = true
      ∧ (ingestPost ([] : KnowledgeStore) "p2" "u" "cap" "instagram" none (some [1])
          (.ok "no json at all") "t0").2.length = 1
      ∧ loads (jsonSpan (pyStrip "x \x7bbad\x7d y").data) = none
      ∧ (ingestPost ([] : KnowledgeStore) "p3" "u" "cap" "instagram" none (some [1])
          (.ok "x \x7bbad\x7d y") "t0").1 = true
      ∧ (ingestPost ([] : KnowledgeStore) "p3" "u" "cap" "instagram" none (some [1])
          (.ok "x \x7bbad\x7d y") "t0").2.length = 1 := by
  have h1 := ingestPost_extraction_validation ([] : KnowledgeStore) "p1" "u" "cap"
    "instagram" "t0" none [1] "\x7b\"date\":\"2025-01-01\"\x7d" (by decide)
  have h2 := ingestPost_extraction_validation ([] : KnowledgeStore) "p2" "u" "cap"
    "instagram" "t0" none [1] "no json at all" (by decide)
  have h3 := ingestPost_extraction_validation ([] : KnowledgeStore) "p3" "u" "cap"
    "instagram" "t0" none [1] "x \x7bbad\x7d y" (by decide)
  have hload : loads (fallbackCaptionExtraction (.ok "\x7b\"date\":\"2025-01-01\"\x7d"))
      = some (.jobj [("date", .jstr "2025-01-01")]) := rfl
  have hno : (((pyStrip "no json at all").data.contains '\x7b'
      && (pyStrip "no json at all").data.contains '\x7d') = false) := rfl
  have hspan : loads (jsonSpan (pyStrip "x \x7bbad\x7d y").data) = none := rfl
  have h4 := h2.2 (Or.inl hno)
  have h5 := h3.2 (Or.inr hspan)
  refine ⟨by decide, hload, h1.1 _ hload (by decide), ?_, ?_, hspan, ?_, ?_⟩
  · rw [h4]
  · rw [h4]
    rfl
  · rw [h5]
  · rw [h5]
    rfl

/-- A word-character (regex `\w`) is never Python whitespace. -/
theorem isWordChar_not_space (ch : Char) (h : isWordChar ch = true) :
    isPySpace ch = false := by
  cases hsp : isPySpace ch with
  | false => rfl
  | true =>
    simp only [isPySpace, Bool.or_eq_true, beq_iff_eq] at hsp
    rcases hsp with ((((rfl | rfl) | rfl) | rfl) | rfl) | rfl <;>
      exact absurd h (by decide)

/-- Scanning an all-non-space run yields at most one word. -/
theorem pyWordsAux_nonws (A : List Char) : ∀ cur : List Char,
    (∀ c ∈ A, isPySpace c = false) → (pyWordsAux A cur).length ≤ 1 := by
  induction A with
  | nil =>
    intro cur _
    simp only [pyWordsAux]
    split <;> simp
  | cons c cs ih =>
    intro cur hA
    have hc : isPySpace c = false := hA c (List.mem_cons_self c cs)
    simp only [pyWordsAux, hc, Bool.false_eq_true, if_false]
    exact ih (c :: cur) fun d hd => hA d (List.mem_cons_of_mem c hd)

/-- A leading whitespace run is skipped by the word scanner. -/
theorem pyWordsAux_ws_append (W : List Char) (B : List Char)
    (hW : ∀ c ∈ W, isPySpace c = true) :
    pyWordsAux (W ++ B) [] = pyWordsAux B [] := by
  induction W with
  | nil => rfl
  | cons c cs ih =>
    have hc : isPySpace c = true := hW c (List.mem_cons_self c cs)
    simp only [List.cons_append, pyWordsAux, hc, if_true, List.isEmpty_nil]
    exact ih fun d hd => hW d (List.mem_cons_of_mem c hd)

/-- A string shaped as non-space run, whitespace run, non-space run
splits into at most two words. -/
theorem pyWordsAux_three (A W B : List Char) : ∀ cur : List Char,
    (∀ c ∈ A, isPySpace c = false) → (∀ c ∈ W, isPySpace c = true) →
    (∀ c ∈ B, isPySpace c = false) →
    (pyWordsAux (A ++ (W ++ B)) cur).length ≤ 2 := by
  induction A with
  | nil =>
    intro cur _ hW hB
    simp only [List.nil_append]
    cases W with
    | nil =>
      simp only [List.nil_append]
      have := pyWordsAux_nonws B cur hB
      omega
    | cons w ws =>
      have hw : isPySpace w = true := hW w (List.mem_cons_self w ws)
      simp only [List.cons_append, pyWordsAux, hw, if_true, List.append_eq]
      have hws : ∀ c ∈ ws, isPySpace c = true := fun d hd =>
        hW d (List.mem_cons_of_mem w hd)
      have hrw : pyWordsAux (ws ++ B) [] = pyWordsAux B [] :=
        pyWordsAux_ws_append ws B hws
      have hb := pyWordsAux_nonws B ([] : List Char) hB
      split
      · rw [hrw]
        omega
      · rw [hrw]
        simp only [List.length_cons]
        omega
  | cons a as ih =>
    intro cur hA hW hB
    have ha : isPySpace a = false := hA a (List.mem_cons_self a as)
    simp only [List.cons_append, pyWordsAux, ha, Bool.false_eq_true, if_false]
    exact ih (a :: cur) (fun d hd => hA d (List.mem_cons_of_mem a hd)) hW hB

/-- Every character of a `stem c+` match lies in the stem or equals the
repeated character. -/
theorem stemPlus_all_mem (stem : List Char) (c : Char) (s : List Char)
    (h : stemPlus stem c s = true) : ∀ x ∈ s, x ∈ stem ∨ x = c := by
  simp only [stemPlus, Bool.and_eq_true, decide_eq_true_eq, beq_iff_eq,
    List.all_eq_true] at h
  obtain ⟨⟨_, htake⟩, hdrop⟩ := h
  intro x hx
  rw [← List.take_append_drop stem.length s] at hx
  rcases List.mem_append.mp hx with h1 | h1
  · rw [htake] at h1
    exact Or.inl h1
  · have := hdrop x h1
    simp only [beq_iff_eq] at this
    exact Or.inr this

/-- A `stem c+` match over non-space characters is a single word. -/
theorem stemPlus_words_le (stem : List Char) (c : Char) (s : List Char)
    (h : stemPlus stem c s = true)
    (hstem : ∀ x ∈ stem, isPySpace x = false) (hc : isPySpace c = false) :
    (pyWords s).length ≤ 1 := by
  apply pyWordsAux_nonws
  intro x hx
  rcases stemPlus_all_mem stem c s h x hx with h1 | h1
  · exact hstem x h1
  · rw [h1]
    exact hc

/-- A `^\w*thanks?\w*$` match is a single word. -/
theorem thanksPat_words_le (s : List Char) (h : thanksPat s = true) :
    (pyWords s).length ≤ 1 := by
  simp only [thanksPat, Bool.and_eq_true, List.all_eq_true] at h
  apply pyWordsAux_nonws
  intro x hx
  exact isWordChar_not_space x (h.1 x hx)

/-- A `^\w*thank\s*you\w*$` match splits into at most two words. -/
theorem thankYouPat_words_le (s : List Char) (h : thankYouPat s = true) :
    (pyWords s).length ≤ 2 := by
  simp only [thankYouPat, List.any_eq_true, List.mem_range] at h
  obtain ⟨i, _, hcond⟩ := h
  rw [Bool.and_eq_true, Bool.and_eq_true] at hcond
  obtain ⟨⟨ha, hb⟩, hc⟩ := hcond
  simp only [List.any_eq_true, List.mem_range] at hc
  obtain ⟨j, _, hcond2⟩ := hc
  rw [Bool.and_eq_true, Bool.and_eq_true] at hcond2
  obtain ⟨⟨hw, hy⟩, hz⟩ := hcond2
  simp only [containsAt, beq_iff_eq] at hb hy
  simp only [List.all_eq_true] at ha hw hz
  have h5 : s.drop i = "thank".data ++ (s.drop (i + 5)) := by
    conv_lhs => rw [← List.take_append_drop "thank".data.length (s.drop i)]
    rw [hb, List.drop_drop]
    rfl
  have h7 : (s.drop (i + 5)).drop j = "you".data ++ ((s.drop (i + 5)).drop (j + 3)) := by
    conv_lhs => rw [← List.take_append_drop "you".data.length ((s.drop (i + 5)).drop j)]
    rw [hy, List.drop_drop]
    rfl
  have hs : s = (s.take i ++ "thank".data)
      ++ (((s.drop (i + 5)).take j)
        ++ ("you".data ++ ((s.drop (i + 5)).drop (j + 3)))) := by
    conv_lhs => rw [← List.take_append_drop i s]
    rw [h5]
    conv_lhs =>
      rw [← List.take_append_drop j (s.drop (i + 5))]
    rw [h7]
    simp [List.append_assoc]
  have hgoal : (pyWordsAux ((s.take i ++ "thank".data)
      ++ ((((s.drop (i + 5)).take j))
        ++ ("you".data ++ ((s.drop (i + 5)).drop (j + 3))))) []).length ≤ 2 := by
    apply pyWordsAux_three
    · intro x hx
      rcases List.mem_append.mp hx with h1 | h1
      · exact isWordChar_not_space x (ha x h1)
      · fin_cases h1 <;> decide
    · intro x hx
      exact hw x hx
    · intro x hx
      rcases List.mem_append.mp hx with h1 | h1
      · fin_cases h1 <;> decide
      · exact isWordChar_not_space x (hz x h1)
  rw [pyWords, hs]
  exact hgoal

/-- Any greeting-pattern match contains at most two words. -/
theorem matchesGreetingPattern_words_le (s : List Char)
    (h : matchesGreetingPattern s = true) : (pyWords s).length ≤ 2 := by
  simp only [matchesGreetingPattern, Bool.or_eq_true] at h
  rcases h with
    (((((((((((((((((((h|h)|h)|h)|h)|h)|h)|h)|h)|h)|h)|h)|h)|h)|h)|h)|h)|h)|h)|h)
  all_goals first
    | (exact le_trans (stemPlus_words_le _ _ _ h (by decide) (by decide)) (by norm_num))
    | (rw [beq_iff_eq] at h; subst h; decide)
    | (exact le_trans (thanksPat_words_le _ h) (by norm_num))
    | (exact thankYouPat_words_le _ h)

/-- Counterexample for C9: the two-word message "hi there" contains the
greeting word "hi" together with the unrelated word "there" — it is not
built entirely from the greeting-word set — yet `is_generic_greeting`
returns true via the short-message heuristic, contradicting the claim
that the heuristic matches only messages built entirely from the
greeting-word set (and that a multi-word message with a greeting word
plus unrelated content is rejected). -/
theorem isGenericGreeting_two_word_counterexample :
    isGenericGreeting "hi there" = true
      ∧ (pyWords (normalizeMessage "hi there")).length = 2
      ∧ "there".data ∈ pyWords (normalizeMessage "hi there")
      ∧ greetingWords.any (· == "there".data) = false := by
  exact ⟨by decide, by decide, by decide, by decide⟩

/-- C9 (amended): the Gatekeeper's short-message heuristic fires for any
normalized message of at most two words containing at least one word
from the greeting-word set (not only messages built entirely from it);
for a message whose normalized form has three or more words — in
particular a substantive sentence containing a greeting word plus
unrelated content — `is_generic_greeting` returns false. -/
theorem isGenericGreeting_amended (m : String) :
    ((pyWords (normalizeMessage m)).length ≤ 2 →
      (pyWords (normalizeMessage m)).any
          (fun w => greetingWords.any (· == w)) = true →
      isGenericGreeting m = true)
    ∧ (3 ≤ (pyWords (normalizeMessage m)).length → isGenericGreeting m = false) := by
  constructor
  · intro hlen hany
    by_cases hm : matchesGreetingPattern (normalizeMessage m) = true
    · simp [isGenericGreeting, hm]
    · simp only [Bool.not_eq_true] at hm
      simp [isGenericGreeting, hm, hany, decide_eq_true hlen]
  · intro h3
    have hm : matchesGreetingPattern (normalizeMessage m) = false := by
      cases hmm : matchesGreetingPattern (normalizeMessage m) with
      | false => rfl
      | true =>
        have := matchesGreetingPattern_words_le _ hmm
        omega
    have hlen : decide ((pyWords (normalizeMessage m)).length ≤ 2) = false :=
      decide_eq_false (by omega)
    simp [isGenericGreeting, hm, hlen]

/-- Witness for C9 (amended): "hi friend" (two words, one greeting word)
is classified as a greeting, while "hello how much is it" (five words,
greeting word plus unrelated content) is not. -/
theorem isGenericGreeting_amended_witness :
    isGenericGreeting "hi friend" = true
      ∧ isGenericGreeting "hello how much is it" = false := by
  have h1 := (isGenericGreeting_amended "hi friend").1 (by decide) (by decide)
  have h2 := (isGenericGreeting_amended "hello how much is it").2 (by decide)
  exact ⟨h1, h2⟩

end SpecVerify
